import Mathlib

/-!
Shallow embedding of the control-plane logic of three I2C camera sensor
drivers (gc8034.c, gc02m1.c, s5k5e9.c): register-table interpretation with
burst coalescing, exposure/gain parameter encoding, nearest-fit mode lookup
and the streaming on/off entry points.  Bus transactions are modelled by an
oracle assigning a return code to every transaction index; device effects
are recorded as an ordered log of (address, value) writes.
-/

namespace SensorDrivers

/-- Behaviour of the underlying I2C/regmap transport: `err k` is the return
code of the k-th bus transaction issued by the driver. `0` means the
transfer succeeded; a nonzero (in practice negative errno) value means it
failed and nothing reached the device. -/
structure Bus where
  err : Nat → Int

/-- A bus on which every transaction succeeds. -/
def okBus : Bus := ⟨fun _ => 0⟩

/-- A bus failing exactly at transaction `k`, with return code `e`. -/
def failAt (k : Nat) (e : Int) : Bus := ⟨fun i => if i = k then e else 0⟩

/-- `struct regval { u8 addr; u8 val; }` of gc8034.c. -/
structure Regval where
  addr : Nat
  val : Nat
deriving DecidableEq

/-- Mutable device state of a gc8034 instance, together with the log of
successful single-register writes (address, value) and the index of the
next bus transaction. `cur_mode_regs` is `cur_mode->reg_list`. -/
structure GC8034State where
  writes : List (Nat × Nat)
  nextOp : Nat
  Dgain_ratio : Nat
  streaming : Bool
  pmRefs : Nat
  cur_mode_regs : List Regval
  lane_num : Nat
deriving DecidableEq

/-- `gc8034_write_reg`: one i2c transfer of (reg, val); returns 0 when the
transfer succeeds, otherwise the transfer's error code, logging the write
only on success. -/
def gc8034_write_reg (bus : Bus) (st : GC8034State) (reg val : Nat) :
    Int × GC8034State :=
  let r := bus.err st.nextOp
  if r = 0 then
    (0, { st with writes := st.writes ++ [(reg, val)], nextOp := st.nextOp + 1 })
  else
    (r, { st with nextOp := st.nextOp + 1 })

/-- `gc8034_write_array`: write entries in order until the `REG_NULL`
(0xFF) terminator, stopping at the first failing write and returning its
error code. -/
def gc8034_write_array (bus : Bus) : GC8034State → List Regval → Int × GC8034State
  | st, [] => (0, st)
  | st, r :: rest =>
    if r.addr = 0xFF then (0, st)
    else
      let p := gc8034_write_reg bus st r.addr r.val
      if p.1 = 0 then gc8034_write_array bus p.2 rest else p

/-- `gc8034_set_exposure_reg`: round the exposure down to an even
`cal_shutter`, cache `Dgain_ratio = 256 * exposure / cal_shutter`, then
write page 0, the masked high exposure byte (0x03) and the low exposure
byte (0x04). The returned code is the bitwise or of the three write
results, as in the source. -/
def gc8034_set_exposure_reg (bus : Bus) (st : GC8034State) (exposure : Nat) :
    Int × GC8034State :=
  let cal_shutter := (exposure >>> 1) <<< 1
  let st0 := { st with Dgain_ratio := 256 * exposure / cal_shutter }
  let p1 := gc8034_write_reg bus st0 0xfe 0x00
  let p2 := gc8034_write_reg bus p1.2 0x03 ((cal_shutter >>> 8) &&& 0x7F)
  let p3 := gc8034_write_reg bus p2.2 0x04 (cal_shutter &&& 0xFF)
  (Int.lor (Int.lor p1.1 p2.1) p3.1, p3.2)

/-- `gain_level[MAX_AG_INDEX]`: ascending analog-gain thresholds. -/
def gain_level : List Nat :=
  [0x0040, 0x0058, 0x007d, 0x00ad, 0x00f3, 0x0159, 0x01ea, 0x02ac, 0x03c2]

/-- `agc_register[MAX_AG_INDEX][AGC_REG_NUM]`: per-gain-index auxiliary
register block. -/
def agc_register : List (List Nat) :=
  [[0x00, 0x55, 0x83, 0x01, 0x06, 0x18, 0x20, 0x16, 0x17, 0x50, 0x6c, 0x9b, 0xd8, 0x00],
   [0x00, 0x55, 0x83, 0x01, 0x06, 0x18, 0x20, 0x16, 0x17, 0x50, 0x6c, 0x9b, 0xd8, 0x00],
   [0x00, 0x4e, 0x84, 0x01, 0x0c, 0x2e, 0x2d, 0x15, 0x19, 0x47, 0x70, 0x9f, 0xd8, 0x00],
   [0x00, 0x51, 0x80, 0x01, 0x07, 0x28, 0x32, 0x22, 0x20, 0x49, 0x70, 0x91, 0xd9, 0x00],
   [0x00, 0x4d, 0x83, 0x01, 0x0f, 0x3b, 0x3b, 0x1c, 0x1f, 0x47, 0x6f, 0x9b, 0xd3, 0x00],
   [0x00, 0x50, 0x83, 0x01, 0x08, 0x35, 0x46, 0x1e, 0x22, 0x4c, 0x70, 0x9a, 0xd2, 0x00],
   [0x00, 0x52, 0x80, 0x01, 0x0c, 0x35, 0x3a, 0x2b, 0x2d, 0x4c, 0x67, 0x8d, 0xc0, 0x00],
   [0x00, 0x52, 0x80, 0x01, 0x0c, 0x35, 0x3a, 0x2b, 0x2d, 0x4c, 0x67, 0x8d, 0xc0, 0x00],
   [0x00, 0x52, 0x80, 0x01, 0x0c, 0x35, 0x3a, 0x2b, 0x2d, 0x4c, 0x67, 0x8d, 0xc0, 0x00]]

/-- The descending scan of `gc8034_set_gain_reg`: starting at index `i` and
going down to 0, the first (i.e. largest) index whose `gain_level` entry is
less than or equal to the requested gain; `none` when no index qualifies. -/
def gc8034_gain_index (a_gain : Nat) : Nat → Option Nat
  | 0 => if gain_level.getD 0 0 ≤ a_gain then some 0 else none
  | i + 1 =>
    if gain_level.getD (i + 1) 0 ≤ a_gain then some (i + 1)
    else gc8034_gain_index a_gain i

/-- `gc8034_set_gain_reg`: scan `gain_level` from index `MEAG_INDEX - 1 = 6`
down to 0; at the first index whose threshold is ≤ `a_gain`, write page 0,
the gain step (0xb6), the two digital-gain bytes (0xb1/0xb2, scaled by the
cached `Dgain_ratio`) and replay the 14-byte `agc_register` block for that
index. If no index qualifies, nothing is written and 0 is returned. -/
def gc8034_set_gain_reg (bus : Bus) (st : GC8034State) (a_gain : Nat) :
    Int × GC8034State :=
  let dgr := st.Dgain_ratio
  match gc8034_gain_index a_gain 6 with
  | none => (0, st)
  | some gain_index =>
    let g := gain_level.getD gain_index 0
    let agc := agc_register.getD gain_index []
    let temp_gain := 256 * a_gain / g * dgr / 256
    let p1 := gc8034_write_reg bus st 0xfe 0x00
    let p2 := gc8034_write_reg bus p1.2 0xb6 gain_index
    let p3 := gc8034_write_reg bus p2.2 0xb1 ((temp_gain >>> 8) &&& 0xFF)
    let p4 := gc8034_write_reg bus p3.2 0xb2 (temp_gain &&& 0xFF)
    let p5 := gc8034_write_reg bus p4.2 0xfe (agc.getD 0 0)
    let p6 := gc8034_write_reg bus p5.2 0x20 (agc.getD 1 0)
    let p7 := gc8034_write_reg bus p6.2 0x33 (agc.getD 2 0)
    let p8 := gc8034_write_reg bus p7.2 0xfe (agc.getD 3 0)
    let p9 := gc8034_write_reg bus p8.2 0xdf (agc.getD 4 0)
    let p10 := gc8034_write_reg bus p9.2 0xe7 (agc.getD 5 0)
    let p11 := gc8034_write_reg bus p10.2 0xe8 (agc.getD 6 0)
    let p12 := gc8034_write_reg bus p11.2 0xe9 (agc.getD 7 0)
    let p13 := gc8034_write_reg bus p12.2 0xea (agc.getD 8 0)
    let p14 := gc8034_write_reg bus p13.2 0xeb (agc.getD 9 0)
    let p15 := gc8034_write_reg bus p14.2 0xec (agc.getD 10 0)
    let p16 := gc8034_write_reg bus p15.2 0xed (agc.getD 11 0)
    let p17 := gc8034_write_reg bus p16.2 0xee (agc.getD 12 0)
    let p18 := gc8034_write_reg bus p17.2 0xfe (agc.getD 13 0)
    (Int.lor (Int.lor (Int.lor (Int.lor (Int.lor (Int.lor (Int.lor (Int.lor
      (Int.lor (Int.lor (Int.lor (Int.lor (Int.lor (Int.lor (Int.lor
      (Int.lor (Int.lor p1.1 p2.1) p3.1) p4.1) p5.1) p6.1) p7.1) p8.1)
      p9.1) p10.1) p11.1) p12.1) p13.1) p14.1) p15.1) p16.1) p17.1) p18.1,
     p18.2)

/-- The width/height part of `struct gc8034_mode` (the only fields the
nearest-fit lookup reads). -/
structure GC8034Mode where
  width : Nat
  height : Nat
deriving DecidableEq

/-- Reduction of an integer into the unsigned 32-bit range [0, 2^32). -/
def toU32 (x : Int) : Int := x % 4294967296

/-- Twos-complement reinterpretation of a 32-bit value as a signed int,
as performed when a u32 expression is assigned to a C `int`: values at or
above 2^31 come out negative. -/
def toS32 (x : Int) : Int :=
  if toU32 x < 2147483648 then toU32 x else toU32 x - 4294967296

/-- The kernel `abs()` on a signed int (`__x < 0 ? -__x : __x`): the
negation is itself computed in int, so `-INT_MIN` wraps back to INT_MIN. -/
def c_abs (x : Int) : Int := if x < 0 then toS32 (-x) else x

/-- `gc8034_get_reso_dist`: `abs(mode->width - framefmt->width) +
abs(mode->height - framefmt->height)` where both operands of each
subtraction are u32, so the difference wraps modulo 2^32 and is then
reinterpreted as a signed int by the kernel `abs()` macro; the sum is
stored in an `int`. -/
def gc8034_get_reso_dist (m : GC8034Mode) (w h : Nat) : Int :=
  toS32 (c_abs (toS32 ((m.width : Int) - (w : Int))) +
         c_abs (toS32 ((m.height : Int) - (h : Int))))

/-- The distance as claim C4 and the spec word it: the exact (unbounded)
Manhattan distance between a mode and the requested frame size.  To be
compared with `gc8034_get_reso_dist`, the distance the code computes. -/
def gc8034_claim_reso_dist (m : GC8034Mode) (w h : Nat) : Int :=
  |(m.width : Int) - (w : Int)| + |(m.height : Int) - (h : Int)|

/-- The scan loop of `gc8034_find_best_fit`: walk the remaining modes,
keeping the index of the first mode whose distance is strictly smaller
than the best distance so far (initially the flag value -1). -/
def gc8034_find_best_fit_loop (w h : Nat) :
    List GC8034Mode → Nat → Nat → Int → Nat
  | [], _, cur_best_fit, _ => cur_best_fit
  | m :: rest, i, cur_best_fit, cur_best_fit_dist =>
    let dist := gc8034_get_reso_dist m w h
    if cur_best_fit_dist = -1 ∨ dist < cur_best_fit_dist then
      gc8034_find_best_fit_loop w h rest (i + 1) i dist
    else
      gc8034_find_best_fit_loop w h rest (i + 1) cur_best_fit cur_best_fit_dist

/-- `gc8034_find_best_fit`: index of the selected mode in the catalog. -/
def gc8034_find_best_fit (modes : List GC8034Mode) (w h : Nat) : Nat :=
  gc8034_find_best_fit_loop w h modes 0 0 (-1)

/-- `__gc8034_start_stream`: apply the current mode's register table
(aborting on failure), then replay the cached controls through the host
control framework (`ctrlSetup`, an external collaborator), select page 0
and write the streaming control-mode register; the last three return codes
are or-combined as in the source. -/
def gc8034_start_stream (bus : Bus)
    (ctrlSetup : GC8034State → Int × GC8034State) (st : GC8034State) :
    Int × GC8034State :=
  let p := gc8034_write_array bus st st.cur_mode_regs
  if p.1 ≠ 0 then p
  else
    let q1 := ctrlSetup p.2
    let q2 := gc8034_write_reg bus q1.2 0xfe 0x00
    let q3 :=
      if st.lane_num = 2 then gc8034_write_reg bus q2.2 0x3f 0x91
      else gc8034_write_reg bus q2.2 0x3f 0xd0
    (Int.lor (Int.lor q1.1 q2.1) q3.1, q3.2)

/-- `__gc8034_stop_stream`: select page 0 and write software standby; the
two return codes are or-combined. -/
def gc8034_stop_stream (bus : Bus) (st : GC8034State) : Int × GC8034State :=
  let p1 := gc8034_write_reg bus st 0xfe 0x00
  let p2 := gc8034_write_reg bus p1.2 0x3f 0x00
  (Int.lor p1.1 p2.1, p2.2)

/-- `gc8034_s_stream`: no-op success when the requested on/off state equals
the current `streaming` flag; otherwise start (taking a runtime-PM
reference, releasing it again and keeping `streaming` false if the start
sequence fails) or stop (best effort, always dropping the reference).
Acquiring the runtime-PM reference itself is host plumbing and is modelled
as succeeding. -/
def gc8034_s_stream (bus : Bus)
    (ctrlSetup : GC8034State → Int × GC8034State) (st : GC8034State)
    (enable : Bool) : Int × GC8034State :=
  if enable = st.streaming then (0, st)
  else if enable then
    let st1 := { st with pmRefs := st.pmRefs + 1 }
    let p := gc8034_start_stream bus ctrlSetup st1
    if p.1 ≠ 0 then (p.1, { p.2 with pmRefs := p.2.pmRefs - 1 })
    else (p.1, { p.2 with streaming := true })
  else
    let p := gc8034_stop_stream bus st
    (0, { p.2 with pmRefs := p.2.pmRefs - 1, streaming := false })

/-- `struct reg_8 { u16 addr; u8 val; }` of gc02m1.c and s5k5e9.c. -/
structure Reg8 where
  addr : Nat
  val : Nat
deriving DecidableEq

/-- Mutable device state of a gc02m1 instance: the log of successful burst
writes (start address, byte list), the next bus transaction index, the
runtime-PM usage count, the active format and the cached control values
(control id, value) registered with the host control handler. -/
structure GC02M1State where
  writes : List (Nat × List Nat)
  nextOp : Nat
  pmRefs : Nat
  fmtWidth : Nat
  fmtHeight : Nat
  ctrls : List (Nat × Nat)
deriving DecidableEq

/-- `regmap_bulk_write` for gc02m1: one bus transaction writing `vals` at
consecutive addresses starting at `addr`; logs only on success. -/
def gc02m1_bulk_write (bus : Bus) (st : GC02M1State) (addr : Nat)
    (vals : List Nat) : Int × GC02M1State :=
  let r := bus.err st.nextOp
  if r = 0 then
    (0, { st with writes := st.writes ++ [(addr, vals)], nextOp := st.nextOp + 1 })
  else
    (r, { st with nextOp := st.nextOp + 1 })

/-- The look-ahead of `gc02m1_write_table` (`for (i = 0; i < MAX_CMD; i++)`
with `MAX_CMD = 4`): number of leading entries, starting at the cursor,
whose addresses are exactly `t.addr, t.addr+1, t.addr+2, t.addr+3`. -/
def gc02m1_burst_len (t : Reg8) (rest : List Reg8) : Nat :=
  match rest with
  | [] => 1
  | r1 :: rest1 =>
    if r1.addr = t.addr + 1 then
      match rest1 with
      | [] => 2
      | r2 :: rest2 =>
        if r2.addr = t.addr + 2 then
          match rest2 with
          | [] => 3
          | r3 :: _ => if r3.addr = t.addr + 3 then 4 else 3
        else 2
    else 1

/-- The walk of `gc02m1_write_table`, with an explicit iteration bound
(`fuel`); every iteration consumes at least one entry, so a fuel equal to
the table length (as supplied by `gc02m1_write_table`) is never exhausted.
Address 1 (`GC02M1_TABLE_END`) stops the walk with success; address 0
(`GC02M1_TABLE_WAIT_MS`) sleeps without bus I/O; otherwise a burst of
1 to 4 entries with exactly consecutive addresses is written in one bus
transaction and the cursor advances past the consumed entries.  A failing
burst write aborts the walk and returns its error code. -/
def gc02m1_write_table_go (bus : Bus) :
    Nat → GC02M1State → List Reg8 → Int × GC02M1State
  | 0, st, _ => (0, st)
  | _ + 1, st, [] => (0, st)
  | fuel + 1, st, t :: rest =>
    if t.addr = 1 then (0, st)
    else if t.addr = 0 then gc02m1_write_table_go bus fuel st rest
    else
      let i := gc02m1_burst_len t rest
      let vals := ((t :: rest).take i).map Reg8.val
      let p := gc02m1_bulk_write bus st t.addr vals
      if p.1 = 0 then gc02m1_write_table_go bus fuel p.2 (rest.drop (i - 1))
      else p

/-- `gc02m1_write_table`. -/
def gc02m1_write_table (bus : Bus) (st : GC02M1State) (table : List Reg8) :
    Int × GC02M1State :=
  gc02m1_write_table_go bus table.length st table

/-- `mode_table_common` of gc02m1.c, in source order (202 entries; entry 10
is the page-3 register write `{0x01, 0x0b}`, whose address collides with
the `GC02M1_TABLE_END` sentinel value 1). -/
def mode_table_common : List Reg8 :=
  [Reg8.mk 0xfc 0x01, Reg8.mk 0xf4 0x41, Reg8.mk 0xf5 0xc0, Reg8.mk 0xf6 0x44, Reg8.mk 0xf8 0x38,
   Reg8.mk 0xf9 0x82, Reg8.mk 0xfa 0x00, Reg8.mk 0xfd 0x80, Reg8.mk 0xfc 0x81, Reg8.mk 0xfe 0x03,
   Reg8.mk 0x01 0x0b, Reg8.mk 0xf7 0x01, Reg8.mk 0xfc 0x80, Reg8.mk 0xfc 0x80, Reg8.mk 0xfc 0x80,
   Reg8.mk 0xfc 0x8e, Reg8.mk 0xfe 0x00, Reg8.mk 0x87 0x09, Reg8.mk 0xee 0x72, Reg8.mk 0xfe 0x01,
   Reg8.mk 0x8c 0x90, Reg8.mk 0xfe 0x00, Reg8.mk 0x90 0x00, Reg8.mk 0x03 0x04, Reg8.mk 0x04 0x7d,
   Reg8.mk 0x41 0x04, Reg8.mk 0x42 0xf4, Reg8.mk 0x05 0x04, Reg8.mk 0x06 0x48, Reg8.mk 0x07 0x00,
   Reg8.mk 0x08 0x18, Reg8.mk 0x9d 0x18, Reg8.mk 0x09 0x00, Reg8.mk 0x0a 0x02, Reg8.mk 0x0d 0x04,
   Reg8.mk 0x0e 0xbc, Reg8.mk 0x17 0x80, Reg8.mk 0x19 0x04, Reg8.mk 0x24 0x00, Reg8.mk 0x56 0x20,
   Reg8.mk 0x5b 0x00, Reg8.mk 0x5e 0x01, Reg8.mk 0x21 0x3c, Reg8.mk 0x44 0x20, Reg8.mk 0xcc 0x01,
   Reg8.mk 0x1a 0x04, Reg8.mk 0x1f 0x11, Reg8.mk 0x27 0x30, Reg8.mk 0x2b 0x00, Reg8.mk 0x33 0x00,
   Reg8.mk 0x53 0x90, Reg8.mk 0xe6 0x50, Reg8.mk 0x39 0x07, Reg8.mk 0x43 0x04, Reg8.mk 0x46 0x2a,
   Reg8.mk 0x7c 0xa0, Reg8.mk 0xd0 0xbe, Reg8.mk 0xd1 0x60, Reg8.mk 0xd2 0x40, Reg8.mk 0xd3 0xf3,
   Reg8.mk 0xde 0x1d, Reg8.mk 0xcd 0x05, Reg8.mk 0xce 0x6f, Reg8.mk 0xfc 0x88, Reg8.mk 0xfe 0x10,
   Reg8.mk 0xfe 0x00, Reg8.mk 0xfc 0x8e, Reg8.mk 0xfe 0x00, Reg8.mk 0xfe 0x00, Reg8.mk 0xfe 0x00,
   Reg8.mk 0xfe 0x00, Reg8.mk 0xfc 0x88, Reg8.mk 0xfe 0x10, Reg8.mk 0xfe 0x00, Reg8.mk 0xfc 0x8e,
   Reg8.mk 0xfe 0x04, Reg8.mk 0xe0 0x01, Reg8.mk 0xfe 0x00, Reg8.mk 0xfe 0x01, Reg8.mk 0x53 0x44,
   Reg8.mk 0x87 0x53, Reg8.mk 0x89 0x03, Reg8.mk 0xfe 0x00, Reg8.mk 0xb0 0x74, Reg8.mk 0xb1 0x04,
   Reg8.mk 0xb2 0x00, Reg8.mk 0xb6 0x00, Reg8.mk 0xfe 0x04, Reg8.mk 0xd8 0x00, Reg8.mk 0xc0 0x40,
   Reg8.mk 0xc0 0x00, Reg8.mk 0xc0 0x00, Reg8.mk 0xc0 0x00, Reg8.mk 0xc0 0x60, Reg8.mk 0xc0 0x00,
   Reg8.mk 0xc0 0xc0, Reg8.mk 0xc0 0x2a, Reg8.mk 0xc0 0x80, Reg8.mk 0xc0 0x00, Reg8.mk 0xc0 0x00,
   Reg8.mk 0xc0 0x40, Reg8.mk 0xc0 0xa0, Reg8.mk 0xc0 0x00, Reg8.mk 0xc0 0x90, Reg8.mk 0xc0 0x19,
   Reg8.mk 0xc0 0xc0, Reg8.mk 0xc0 0x00, Reg8.mk 0xc0 0xD0, Reg8.mk 0xc0 0x2F, Reg8.mk 0xc0 0xe0,
   Reg8.mk 0xc0 0x00, Reg8.mk 0xc0 0x90, Reg8.mk 0xc0 0x39, Reg8.mk 0xc0 0x00, Reg8.mk 0xc0 0x01,
   Reg8.mk 0xc0 0x20, Reg8.mk 0xc0 0x04, Reg8.mk 0xc0 0x20, Reg8.mk 0xc0 0x01, Reg8.mk 0xc0 0xe0,
   Reg8.mk 0xc0 0x0f, Reg8.mk 0xc0 0x40, Reg8.mk 0xc0 0x01, Reg8.mk 0xc0 0xe0, Reg8.mk 0xc0 0x1a,
   Reg8.mk 0xc0 0x60, Reg8.mk 0xc0 0x01, Reg8.mk 0xc0 0x20, Reg8.mk 0xc0 0x25, Reg8.mk 0xc0 0x80,
   Reg8.mk 0xc0 0x01, Reg8.mk 0xc0 0xa0, Reg8.mk 0xc0 0x2c, Reg8.mk 0xc0 0xa0, Reg8.mk 0xc0 0x01,
   Reg8.mk 0xc0 0xe0, Reg8.mk 0xc0 0x32, Reg8.mk 0xc0 0xc0, Reg8.mk 0xc0 0x01, Reg8.mk 0xc0 0x20,
   Reg8.mk 0xc0 0x38, Reg8.mk 0xc0 0xe0, Reg8.mk 0xc0 0x01, Reg8.mk 0xc0 0x60, Reg8.mk 0xc0 0x3c,
   Reg8.mk 0xc0 0x00, Reg8.mk 0xc0 0x02, Reg8.mk 0xc0 0xa0, Reg8.mk 0xc0 0x40, Reg8.mk 0xc0 0x80,
   Reg8.mk 0xc0 0x02, Reg8.mk 0xc0 0x18, Reg8.mk 0xc0 0x5c, Reg8.mk 0xfe 0x00, Reg8.mk 0x9f 0x10,
   Reg8.mk 0xfe 0x00, Reg8.mk 0x26 0x20, Reg8.mk 0xfe 0x01, Reg8.mk 0x40 0x22, Reg8.mk 0x46 0x7f,
   Reg8.mk 0x49 0x0f, Reg8.mk 0x4a 0xf0, Reg8.mk 0xfe 0x04, Reg8.mk 0x14 0x80, Reg8.mk 0x15 0x80,
   Reg8.mk 0x16 0x80, Reg8.mk 0x17 0x80, Reg8.mk 0xfe 0x01, Reg8.mk 0x41 0x20, Reg8.mk 0x4c 0x00,
   Reg8.mk 0x4d 0x0c, Reg8.mk 0x44 0x08, Reg8.mk 0x48 0x03, Reg8.mk 0xfe 0x01, Reg8.mk 0x90 0x01,
   Reg8.mk 0x91 0x00, Reg8.mk 0x92 0x06, Reg8.mk 0x93 0x00, Reg8.mk 0x94 0x06, Reg8.mk 0x95 0x04,
   Reg8.mk 0x96 0xb0, Reg8.mk 0x97 0x06, Reg8.mk 0x98 0x40, Reg8.mk 0xfe 0x03, Reg8.mk 0x01 0x23,
   Reg8.mk 0x03 0xce, Reg8.mk 0x04 0x48, Reg8.mk 0x15 0x00, Reg8.mk 0x21 0x10, Reg8.mk 0x22 0x05,
   Reg8.mk 0x23 0x20, Reg8.mk 0x25 0x20, Reg8.mk 0x26 0x08, Reg8.mk 0x29 0x06, Reg8.mk 0x2a 0x0a,
   Reg8.mk 0x2b 0x08, Reg8.mk 0xfe 0x01, Reg8.mk 0x8c 0x10, Reg8.mk 0xfe 0x00, Reg8.mk 0x3e 0x00,
   Reg8.mk 0x00 0x0a, Reg8.mk 0x01 0x00]

/-- `mode_1600x1200` of gc02m1.c. -/
def mode_1600x1200 : List Reg8 :=
  [Reg8.mk 0xfe 0x00, Reg8.mk 0x3e 0x90, Reg8.mk 0x00 0x0a, Reg8.mk 0x01 0x00]

/-- `mode_1600x1200_custom1` of gc02m1.c. -/
def mode_1600x1200_custom1 : List Reg8 :=
  [Reg8.mk 0x41 0x06, Reg8.mk 0x42 0x3c, Reg8.mk 0x07 0x01, Reg8.mk 0x08 0x60, Reg8.mk 0x3e 0x90,
   Reg8.mk 0xfe 0x00, Reg8.mk 0xfe 0x00, Reg8.mk 0x80 0x00, Reg8.mk 0x82 0x08, Reg8.mk 0x83 0x0a,
   Reg8.mk 0x88 0x00, Reg8.mk 0x89 0x04, Reg8.mk 0x8a 0x00, Reg8.mk 0x8b 0x12, Reg8.mk 0x7f 0x29,
   Reg8.mk 0x85 0x51, Reg8.mk 0xfe 0x00, Reg8.mk 0x00 0x0a, Reg8.mk 0x01 0x00]

/-- `struct gc02m1_mode`. -/
structure GC02M1Mode where
  width : Nat
  height : Nat
  reg_table : List Reg8
deriving DecidableEq

/-- `gc02m1_modes`: two catalog entries with identical dimensions but
different register tables. -/
def gc02m1_modes : List GC02M1Mode :=
  [⟨1600, 1200, mode_1600x1200⟩, ⟨1600, 1200, mode_1600x1200_custom1⟩]

/-- V4L2 control ids (from the host framework's uapi headers). -/
def V4L2_CID_EXPOSURE : Nat := 0x00980911

/-- V4L2 control id of the plain gain control. -/
def V4L2_CID_GAIN : Nat := 0x00980913

/-- V4L2 control id of the horizontal-flip control. -/
def V4L2_CID_HFLIP : Nat := 0x00980914

/-- V4L2 control id of the vertical-flip control. -/
def V4L2_CID_VFLIP : Nat := 0x00980915

/-- V4L2 control id of the test-pattern control. -/
def V4L2_CID_TEST_PATTERN : Nat := 0x009f0903

/-- `gc02m1_set_ctrl`: no-op success when the device is not powered
(`pm_runtime_get_if_in_use` returns 0); otherwise take a temporary power
reference, dispatch on the control id, and drop the reference.  Bus errors
inside the known cases are logged (`dev_err`) and then overwritten with
`ret = 0`, exactly as in the source; an unknown id yields `-EINVAL`. -/
def gc02m1_set_ctrl (bus : Bus) (st : GC02M1State) (id val : Nat) :
    Int × GC02M1State :=
  if st.pmRefs = 0 then (0, st)
  else
    let stP := { st with pmRefs := st.pmRefs + 1 }
    let body : Int × GC02M1State :=
      if id = V4L2_CID_EXPOSURE then
        let p := gc02m1_bulk_write bus stP 0x03
          [(val >>> 8) &&& 0x3F, val &&& 0xFF]
        (0, p.2)
      else if id = V4L2_CID_GAIN then
        let p1 := gc02m1_bulk_write bus stP 0xfe [1]
        let p2 := gc02m1_bulk_write bus p1.2 0xfe [0]
        let p3 := gc02m1_bulk_write bus p2.2 0xb6 [(val >>> 0x12) &&& 0xFF]
        let p4 := gc02m1_bulk_write bus p3.2 0xb1
          [(val >>> (8 + 0x03)) &&& 0x1F, (val >>> 0x03) &&& 0xFF]
        (0, p4.2)
      else if id = V4L2_CID_VFLIP then
        let p1 := gc02m1_bulk_write bus stP 0xfe [0]
        let p2 := gc02m1_bulk_write bus p1.2 0x17 [0x82]
        (0, p2.2)
      else if id = V4L2_CID_HFLIP then
        let p1 := gc02m1_bulk_write bus stP 0xfe [0]
        let p2 := gc02m1_bulk_write bus p1.2 0x17 [0x81]
        (0, p2.2)
      else if id = V4L2_CID_TEST_PATTERN then
        let p1 := gc02m1_bulk_write bus stP 0xfe [1]
        let p2 := gc02m1_bulk_write bus p1.2 0x8c [0x11]
        let p3 := gc02m1_bulk_write bus p2.2 0xfe [0]
        (0, p3.2)
      else (-22, stP)
    (body.1, { body.2 with pmRefs := body.2.pmRefs - 1 })

/-- Modelled from the spec: the host control framework
(`__v4l2_ctrl_handler_setup`, outside this repository) replays every cached
control value through the driver's `s_ctrl` callback so that controls set
before streaming take effect, stopping at the first callback error. -/
def gc02m1_ctrl_setup (bus : Bus) : GC02M1State → List (Nat × Nat) → Int × GC02M1State
  | st, [] => (0, st)
  | st, (id, v) :: rest =>
    let p := gc02m1_set_ctrl bus st id v
    if p.1 = 0 then gc02m1_ctrl_setup bus p.2 rest else p

/-- Modelled from the spec: nearest-fit mode lookup (the framework helper
`v4l2_find_nearest_size` used by gc02m1 is outside this repository; the
spec describes a linear scan of the catalog by Manhattan distance keeping
the first mode achieving the minimum distance seen so far). -/
def gc02m1_find_nearest_loop (w h : Nat) :
    List GC02M1Mode → GC02M1Mode → Int → GC02M1Mode
  | [], best, _ => best
  | m :: rest, best, bestDist =>
    let d := |(m.width : Int) - (w : Int)| + |(m.height : Int) - (h : Int)|
    if d < bestDist then gc02m1_find_nearest_loop w h rest m d
    else gc02m1_find_nearest_loop w h rest best bestDist

/-- Modelled from the spec: entry point of the nearest-fit lookup over the
gc02m1 catalog. -/
def gc02m1_find_nearest (w h : Nat) : GC02M1Mode :=
  match gc02m1_modes with
  | [] => ⟨0, 0, []⟩
  | m :: rest =>
    gc02m1_find_nearest_loop w h rest m
      (|(m.width : Int) - (w : Int)| + |(m.height : Int) - (h : Int)|)

/-- `gc02m1_start_streaming`: apply the common table, apply the register
table of the mode nearest to the active format, replay the cached controls
and write 1 to the streaming register 0x100; the first stage reporting an
error aborts the sequence and its error is returned. -/
def gc02m1_start_streaming (bus : Bus) (st : GC02M1State) : Int × GC02M1State :=
  let p1 := gc02m1_write_table bus st mode_table_common
  if p1.1 < 0 then p1
  else
    let mode := gc02m1_find_nearest st.fmtWidth st.fmtHeight
    let p2 := gc02m1_write_table bus p1.2 mode.reg_table
    if p2.1 < 0 then p2
    else
      let p3 := gc02m1_ctrl_setup bus p2.2 p2.2.ctrls
      if p3.1 < 0 then p3
      else
        let p4 := gc02m1_bulk_write bus p3.2 0x100 [1]
        if p4.1 < 0 then p4 else (0, p4.2)

/-- `gc02m1_stop_streaming`: write 0 to the streaming register. -/
def gc02m1_stop_streaming (bus : Bus) (st : GC02M1State) : Int × GC02M1State :=
  gc02m1_bulk_write bus st 0x100 [0]

/-- `gc02m1_s_stream`: on enable, take a runtime-PM reference (modelled as
succeeding), run the start sequence, and on failure drop the reference
again and return the error; on disable, stop streaming and drop the
reference. There is no already-streaming check in this driver. -/
def gc02m1_s_stream (bus : Bus) (st : GC02M1State) (enable : Bool) :
    Int × GC02M1State :=
  if enable then
    let st1 := { st with pmRefs := st.pmRefs + 1 }
    let p := gc02m1_start_streaming bus st1
    if p.1 < 0 then (p.1, { p.2 with pmRefs := p.2.pmRefs - 1 })
    else (0, p.2)
  else
    let p := gc02m1_stop_streaming bus st
    if p.1 < 0 then (p.1, { p.2 with pmRefs := p.2.pmRefs - 1 })
    else (0, { p.2 with pmRefs := p.2.pmRefs - 1 })

/-- Mutable device state of a s5k5e9 instance (burst-write log, next bus
transaction index, runtime-PM usage count). -/
structure S5K5E9State where
  writes : List (Nat × List Nat)
  nextOp : Nat
  pmRefs : Nat
deriving DecidableEq

/-- `regmap_bulk_write` for s5k5e9. -/
def s5k5e9_bulk_write (bus : Bus) (st : S5K5E9State) (addr : Nat)
    (vals : List Nat) : Int × S5K5E9State :=
  let r := bus.err st.nextOp
  if r = 0 then
    (0, { st with writes := st.writes ++ [(addr, vals)], nextOp := st.nextOp + 1 })
  else
    (r, { st with nextOp := st.nextOp + 1 })

/-- `s5k5e9_set_ctrl`: the function body starts with an unconditional
`return 0`, before the power check and the switch over control ids, so
every control set succeeds immediately with no bus I/O. -/
def s5k5e9_set_ctrl (bus : Bus) (st : S5K5E9State) (id val : Nat) :
    Int × S5K5E9State :=
  (0, st)

/-- The code of `s5k5e9_set_ctrl` below its unconditional `return 0` (the
power check, the switch over exposure / gain / test-pattern ids with their
register writes, and the power release), which is unreachable in the
source. -/
def s5k5e9_set_ctrl_dead_code (bus : Bus) (st : S5K5E9State) (id val : Nat) :
    Int × S5K5E9State :=
  if st.pmRefs = 0 then (0, st)
  else
    let stP := { st with pmRefs := st.pmRefs + 1 }
    let body : Int × S5K5E9State :=
      if id = V4L2_CID_EXPOSURE then (0, stP)
      else if id = V4L2_CID_GAIN then
        let p := s5k5e9_bulk_write bus stP 0x0204
          [(val >>> (8 + 0x1)) &&& 0xFF, (val >>> 0x1) &&& 0xFF]
        (0, p.2)
      else if id = V4L2_CID_TEST_PATTERN then
        let p1 := s5k5e9_bulk_write bus stP 0x0601 [0x2]
        let p2 := s5k5e9_bulk_write bus p1.2 0x3200 [0]
        (0, p2.2)
      else (-22, stP)
    (body.1, { body.2 with pmRefs := body.2.pmRefs - 1 })

/-- The look-ahead of `s5k5e9_write_table` (`MAX_CMD = 4`), identical in
shape to the gc02m1 interpreter. -/
def s5k5e9_burst_len (t : Reg8) (rest : List Reg8) : Nat :=
  match rest with
  | [] => 1
  | r1 :: rest1 =>
    if r1.addr = t.addr + 1 then
      match rest1 with
      | [] => 2
      | r2 :: rest2 =>
        if r2.addr = t.addr + 2 then
          match rest2 with
          | [] => 3
          | r3 :: _ => if r3.addr = t.addr + 3 then 4 else 3
        else 2
    else 1

/-- The walk of `s5k5e9_write_table`, with the same explicit iteration
bound as the gc02m1 interpreter (`S5K5E9_TABLE_END = 1`,
`S5K5E9_TABLE_WAIT_MS = 0`). -/
def s5k5e9_write_table_go (bus : Bus) :
    Nat → S5K5E9State → List Reg8 → Int × S5K5E9State
  | 0, st, _ => (0, st)
  | _ + 1, st, [] => (0, st)
  | fuel + 1, st, t :: rest =>
    if t.addr = 1 then (0, st)
    else if t.addr = 0 then s5k5e9_write_table_go bus fuel st rest
    else
      let i := s5k5e9_burst_len t rest
      let vals := ((t :: rest).take i).map Reg8.val
      let p := s5k5e9_bulk_write bus st t.addr vals
      if p.1 = 0 then s5k5e9_write_table_go bus fuel p.2 (rest.drop (i - 1))
      else p

/-- `s5k5e9_write_table`. -/
def s5k5e9_write_table (bus : Bus) (st : S5K5E9State) (table : List Reg8) :
    Int × S5K5E9State :=
  s5k5e9_write_table_go bus table.length st table

/-- A concrete gc02m1 device state right after probe: nothing written yet,
not powered, active format 1600x1200 (`gc02m1_entity_init_cfg`), and the
exposure control (default value 0x0c70) registered with the control
handler. -/
def gc02m1_st0 : GC02M1State :=
  ⟨[], 0, 0, 1600, 1200, [(V4L2_CID_EXPOSURE, 0x0c70)]⟩

/-- The gc02m1 probe state with one power reference held. -/
def gc02m1_st1 : GC02M1State :=
  ⟨[], 0, 1, 1600, 1200, [(V4L2_CID_EXPOSURE, 0x0c70)]⟩

/-- A concrete gc8034 device state: nothing written yet, not streaming,
4-lane configuration, `Dgain_ratio` as left by a prior exposure set of an
even value. -/
def gc8034_st0 : GC8034State := ⟨[], 0, 256, false, 0, [], 4⟩

/-- A concrete powered s5k5e9 device state. -/
def s5k5e9_stP : S5K5E9State := ⟨[], 0, 1⟩

/-- Index selection as claim C1 words it: scanning the full `gain_level`
table from its highest index (8) down to 0, the largest index whose
threshold is ≤ the requested gain.  To be compared against the selection
the code actually performs, which starts at `MEAG_INDEX - 1 = 6`. -/
def gc8034_claim_gain_index (a_gain : Nat) : Option Nat :=
  gc8034_gain_index a_gain 8

/-! ### Helper lemmas -/

lemma shiftLeft8_or_add (a b : Nat) (hb : b < 256) :
    (a <<< 8) ||| b = a * 256 + b := by
  have h2 : b < 2 ^ 8 := hb
  have h3 := Nat.mul_add_lt_is_or h2 a
  rw [Nat.shiftLeft_eq, Nat.mul_comm, ← h3]

lemma and_mask255 (x : Nat) : x &&& 255 = x % 256 :=
  Nat.and_pow_two_sub_one_eq_mod x 8

lemma and_mask63 (x : Nat) : x &&& 63 = x % 64 :=
  Nat.and_pow_two_sub_one_eq_mod x 6

lemma and_mask127 (x : Nat) : x &&& 127 = x % 128 :=
  Nat.and_pow_two_sub_one_eq_mod x 7

lemma shiftRight8_eq_div (x : Nat) : x >>> 8 = x / 256 := by
  rw [Nat.shiftRight_eq_div_pow]

lemma split_recombine63 (x : Nat) (h : x < 16384) :
    (((x >>> 8) &&& 63) <<< 8) ||| (x &&& 255) = x := by
  rw [shiftRight8_eq_div, and_mask63, and_mask255,
    Nat.mod_eq_of_lt (show x / 256 < 64 by omega),
    shiftLeft8_or_add _ _ (Nat.mod_lt x (by norm_num))]
  omega

lemma split_recombine127 (x : Nat) (h : x < 32768) :
    (((x >>> 8) &&& 127) <<< 8) ||| (x &&& 255) = x := by
  rw [shiftRight8_eq_div, and_mask127, and_mask255,
    Nat.mod_eq_of_lt (show x / 256 < 128 by omega),
    shiftLeft8_or_add _ _ (Nat.mod_lt x (by norm_num))]
  omega

lemma cal_shutter_eq (e : Nat) : (e >>> 1) <<< 1 = e / 2 * 2 := by
  rw [Nat.shiftRight_eq_div_pow, Nat.shiftLeft_eq]

lemma int_lor_zero_zero : Int.lor 0 0 = 0 := rfl

lemma gc8034_set_exposure_reg_ok (st : GC8034State) (e : Nat) :
    gc8034_set_exposure_reg okBus st e =
      (0, { st with
            Dgain_ratio := 256 * e / ((e >>> 1) <<< 1),
            writes := st.writes ++
              [(0xfe, 0x00), (0x03, (((e >>> 1) <<< 1) >>> 8) &&& 0x7F),
               (0x04, ((e >>> 1) <<< 1) &&& 0xFF)],
            nextOp := st.nextOp + 3 }) := by
  simp [gc8034_set_exposure_reg, gc8034_write_reg, okBus, int_lor_zero_zero]

lemma gc02m1_set_ctrl_exposure_ok (st : GC02M1State) (v : Nat)
    (h : st.pmRefs ≠ 0) :
    gc02m1_set_ctrl okBus st V4L2_CID_EXPOSURE v =
      (0, { st with
            writes := st.writes ++ [(0x03, [(v >>> 8) &&& 0x3F, v &&& 0xFF])],
            nextOp := st.nextOp + 1 }) := by
  simp [gc02m1_set_ctrl, gc02m1_bulk_write, okBus, h]

lemma gc8034_claim_reso_dist_nonneg (m : GC8034Mode) (w h : Nat) :
    0 ≤ gc8034_claim_reso_dist m w h :=
  add_nonneg (abs_nonneg _) (abs_nonneg _)

lemma toS32_eq_self (x : Int) (h1 : -2147483648 ≤ x) (h2 : x < 2147483648) :
    toS32 x = x := by
  unfold toS32 toU32
  split_ifs <;> omega

lemma c_abs_eq_abs (x : Int) (h1 : -2147483648 < x) (h2 : x < 2147483648) :
    c_abs x = |x| := by
  unfold c_abs
  by_cases hx : x < 0
  · rw [if_pos hx, toS32_eq_self (-x) (by omega) (by omega), abs_of_neg hx]
  · rw [if_neg hx, abs_of_nonneg (by omega)]

lemma gc8034_get_reso_dist_eq_claim (m : GC8034Mode) (w h : Nat)
    (hr : gc8034_claim_reso_dist m w h < 2147483648) :
    gc8034_get_reso_dist m w h = gc8034_claim_reso_dist m w h := by
  rw [gc8034_claim_reso_dist] at hr
  have ha := abs_nonneg ((m.width : Int) - (w : Int))
  have hb := abs_nonneg ((m.height : Int) - (h : Int))
  have h1 : |(m.width : Int) - (w : Int)| < 2147483648 := by omega
  have h2 : |(m.height : Int) - (h : Int)| < 2147483648 := by omega
  obtain ⟨h1l, h1r⟩ := abs_lt.mp h1
  obtain ⟨h2l, h2r⟩ := abs_lt.mp h2
  rw [gc8034_get_reso_dist, gc8034_claim_reso_dist,
    toS32_eq_self ((m.width : Int) - (w : Int)) (by omega) h1r,
    toS32_eq_self ((m.height : Int) - (h : Int)) (by omega) h2r,
    c_abs_eq_abs ((m.width : Int) - (w : Int)) h1l h1r,
    c_abs_eq_abs ((m.height : Int) - (h : Int)) h2l h2r,
    toS32_eq_self _ (by omega) (by omega)]

lemma gc8034_find_best_fit_loop_spec (w h : Nat) (modes : List GC8034Mode) :
    ∀ (rest : List GC8034Mode) (i b : Nat) (bd : Int),
      rest = modes.drop i →
      (∀ j, j < modes.length →
        0 ≤ gc8034_get_reso_dist (modes.getD j ⟨0, 0⟩) w h) →
      b < i → b < modes.length →
      bd = gc8034_get_reso_dist (modes.getD b ⟨0, 0⟩) w h →
      (∀ j, j < i → j < modes.length →
        bd ≤ gc8034_get_reso_dist (modes.getD j ⟨0, 0⟩) w h) →
      (∀ j, j < b → bd < gc8034_get_reso_dist (modes.getD j ⟨0, 0⟩) w h) →
      gc8034_find_best_fit_loop w h rest i b bd < modes.length ∧
      (∀ j, j < modes.length →
        gc8034_get_reso_dist
            (modes.getD (gc8034_find_best_fit_loop w h rest i b bd) ⟨0, 0⟩) w h ≤
          gc8034_get_reso_dist (modes.getD j ⟨0, 0⟩) w h) ∧
      (∀ j, j < gc8034_find_best_fit_loop w h rest i b bd →
        gc8034_get_reso_dist
            (modes.getD (gc8034_find_best_fit_loop w h rest i b bd) ⟨0, 0⟩) w h <
          gc8034_get_reso_dist (modes.getD j ⟨0, 0⟩) w h) := by
  intro rest
  induction rest generalizing modes with
  | nil =>
    intro i b bd hdrop hpos hbi hblen hbd hmin hfirst
    have hlen : modes.length ≤ i := by
      have hc := congrArg List.length hdrop
      simp [List.length_drop] at hc
      omega
    rw [gc8034_find_best_fit_loop]
    refine ⟨hblen, ?_, ?_⟩
    · intro j hj
      rw [← hbd]
      exact hmin j (by omega) hj
    · intro j hj
      rw [← hbd]
      exact hfirst j hj
  | cons m rest ih =>
    intro i b bd hdrop hpos hbi hblen hbd hmin hfirst
    have hile : i < modes.length := by
      by_contra hcon
      rw [List.drop_eq_nil_of_le (by omega)] at hdrop
      exact List.cons_ne_nil m rest hdrop
    have h0 : modes[i]? = some m := by
      have hc := congrArg (fun l => l[0]?) hdrop
      simpa [List.getElem?_drop] using hc.symm
    have hm : modes.getD i ⟨0, 0⟩ = m := by
      simp [List.getD, h0]
    have hrest : rest = modes.drop (i + 1) := by
      have hc := congrArg List.tail hdrop
      simpa [List.drop_tail] using hc
    have hbd0 : 0 ≤ bd := hbd ▸ hpos b hblen
    simp only [gc8034_find_best_fit_loop]
    by_cases hcond : bd = -1 ∨ gc8034_get_reso_dist m w h < bd
    · rw [if_pos hcond]
      rcases hcond with hneg | hlt2
      · omega
      · exact ih modes (i + 1) i (gc8034_get_reso_dist m w h) hrest hpos
          (by omega) hile
          (by rw [hm]) (fun j hj hjlen => by
            rcases Nat.lt_or_ge j i with hji | hji
            · exact le_trans (le_of_lt hlt2) (hmin j hji hjlen)
            · have hje : j = i := by omega
              rw [hje, hm])
          (fun j hj => lt_of_lt_of_le hlt2 (hmin j hj (by omega)))
    · rw [if_neg hcond]
      push_neg at hcond
      obtain ⟨hne, hge⟩ := hcond
      exact ih modes (i + 1) b bd hrest hpos (by omega) hblen hbd
        (fun j hj hjlen => by
          rcases Nat.lt_or_ge j i with hji | hji
          · exact hmin j hji hjlen
          · have : j = i := by omega
            rw [this, hm]
            exact hge)
        hfirst

lemma gc8034_gain_index_cases (a : Nat) (h64 : 64 ≤ a) :
    ∃ i, gc8034_gain_index a 6 = some i ∧ i ≤ 6 ∧ gain_level.getD i 0 ≤ a ∧
      ∀ j, j ≤ 6 → gain_level.getD j 0 ≤ a → j ≤ i := by
  by_cases h6 : 490 ≤ a
  · refine ⟨6, ?_, by norm_num, ?_, fun j hj _ => hj⟩
    · simp [gc8034_gain_index, gain_level, h6]
    · simpa [gain_level] using h6
  · by_cases h5 : 345 ≤ a
    · refine ⟨5, ?_, by norm_num, ?_, ?_⟩
      · simp [gc8034_gain_index, gain_level, h6, h5]
      · simpa [gain_level] using h5
      · intro j hj hgl
        interval_cases j <;> simp_all [gain_level] <;> omega
    · by_cases h4 : 243 ≤ a
      · refine ⟨4, ?_, by norm_num, ?_, ?_⟩
        · simp [gc8034_gain_index, gain_level, h6, h5, h4]
        · simpa [gain_level] using h4
        · intro j hj hgl
          interval_cases j <;> simp_all [gain_level] <;> omega
      · by_cases h3 : 173 ≤ a
        · refine ⟨3, ?_, by norm_num, ?_, ?_⟩
          · simp [gc8034_gain_index, gain_level, h6, h5, h4, h3]
          · simpa [gain_level] using h3
          · intro j hj hgl
            interval_cases j <;> simp_all [gain_level] <;> omega
        · by_cases h2 : 125 ≤ a
          · refine ⟨2, ?_, by norm_num, ?_, ?_⟩
            · simp [gc8034_gain_index, gain_level, h6, h5, h4, h3, h2]
            · simpa [gain_level] using h2
            · intro j hj hgl
              interval_cases j <;> simp_all [gain_level] <;> omega
          · by_cases h1 : 88 ≤ a
            · refine ⟨1, ?_, by norm_num, ?_, ?_⟩
              · simp [gc8034_gain_index, gain_level, h6, h5, h4, h3, h2, h1]
              · simpa [gain_level] using h1
              · intro j hj hgl
                interval_cases j <;> simp_all [gain_level] <;> omega
            · refine ⟨0, ?_, by norm_num, ?_, ?_⟩
              · simp [gc8034_gain_index, gain_level, h6, h5, h4, h3, h2, h1, h64]
              · simpa [gain_level] using h64
              · intro j hj hgl
                interval_cases j <;> simp_all [gain_level] <;> omega

lemma gc8034_set_gain_reg_emit (st : GC8034State) (a i : Nat)
    (hidx : gc8034_gain_index a 6 = some i) :
    gc8034_set_gain_reg okBus st a =
      (0, { st with
            writes := st.writes ++
              [(0xfe, 0x00), (0xb6, i),
               (0xb1, ((256 * a / gain_level.getD i 0 * st.Dgain_ratio / 256) >>> 8) &&& 0xFF),
               (0xb2, (256 * a / gain_level.getD i 0 * st.Dgain_ratio / 256) &&& 0xFF),
               (0xfe, (agc_register.getD i []).getD 0 0),
               (0x20, (agc_register.getD i []).getD 1 0),
               (0x33, (agc_register.getD i []).getD 2 0),
               (0xfe, (agc_register.getD i []).getD 3 0),
               (0xdf, (agc_register.getD i []).getD 4 0),
               (0xe7, (agc_register.getD i []).getD 5 0),
               (0xe8, (agc_register.getD i []).getD 6 0),
               (0xe9, (agc_register.getD i []).getD 7 0),
               (0xea, (agc_register.getD i []).getD 8 0),
               (0xeb, (agc_register.getD i []).getD 9 0),
               (0xec, (agc_register.getD i []).getD 10 0),
               (0xed, (agc_register.getD i []).getD 11 0),
               (0xee, (agc_register.getD i []).getD 12 0),
               (0xfe, (agc_register.getD i []).getD 13 0)],
            nextOp := st.nextOp + 18 }) := by
  simp [gc8034_set_gain_reg, hidx, gc8034_write_reg, okBus, int_lor_zero_zero]

lemma gc8034_write_array_fail_spec (bus : Bus) :
    ∀ (table : List Regval) (st : GC8034State),
      (∃ tail, (gc8034_write_array bus st table).2.writes = st.writes ++ tail) ∧
      st.nextOp ≤ (gc8034_write_array bus st table).2.nextOp ∧
      ((gc8034_write_array bus st table).1 ≠ 0 →
        st.nextOp < (gc8034_write_array bus st table).2.nextOp ∧
        (gc8034_write_array bus st table).1 =
          bus.err ((gc8034_write_array bus st table).2.nextOp - 1) ∧
        (∀ k, st.nextOp ≤ k → k < (gc8034_write_array bus st table).2.nextOp - 1 →
          bus.err k = 0) ∧
        (gc8034_write_array bus st table).2.writes.length =
          st.writes.length +
            ((gc8034_write_array bus st table).2.nextOp - 1 - st.nextOp)) := by
  intro table
  induction table with
  | nil =>
    intro st
    refine ⟨⟨[], by simp [gc8034_write_array]⟩, by simp [gc8034_write_array], ?_⟩
    intro hne
    exact absurd rfl hne
  | cons r rest ih =>
    intro st
    by_cases haddr : r.addr = 0xFF
    · refine ⟨⟨[], by simp [gc8034_write_array, haddr]⟩,
        by simp [gc8034_write_array, haddr], ?_⟩
      intro hne
      rw [gc8034_write_array] at hne
      simp [haddr] at hne
    · by_cases herr : bus.err st.nextOp = 0
      · have hstep : gc8034_write_array bus st (r :: rest) =
            gc8034_write_array bus
              { st with writes := st.writes ++ [(r.addr, r.val)],
                        nextOp := st.nextOp + 1 } rest := by
          rw [gc8034_write_array]
          simp [haddr, gc8034_write_reg, herr]
        obtain ⟨⟨tail, htail⟩, hmono, himp⟩ :=
          ih { st with writes := st.writes ++ [(r.addr, r.val)],
                       nextOp := st.nextOp + 1 }
        simp only [] at htail hmono himp
        rw [hstep]
        refine ⟨⟨(r.addr, r.val) :: tail, by rw [htail]; simp⟩, by omega, ?_⟩
        intro hne
        obtain ⟨hlt, hret, hzero, hlen⟩ := himp hne
        have hlen2 : (st.writes ++ [(r.addr, r.val)]).length
            = st.writes.length + 1 := by simp
        rw [hlen2] at hlen
        refine ⟨by omega, hret, ?_, by omega⟩
        intro k hk1 hk2
        rcases Nat.eq_or_lt_of_le hk1 with hk | hk
        · rw [← hk]
          exact herr
        · exact hzero k (by omega) hk2
      · have hstep : gc8034_write_array bus st (r :: rest) =
            (bus.err st.nextOp, { st with nextOp := st.nextOp + 1 }) := by
          rw [gc8034_write_array]
          simp [haddr, gc8034_write_reg, herr]
        rw [hstep]
        have hn1 : ({ st with nextOp := st.nextOp + 1 } : GC8034State).nextOp
            = st.nextOp + 1 := rfl
        have hw1 : ({ st with nextOp := st.nextOp + 1 } : GC8034State).writes
            = st.writes := rfl
        rw [hn1, hw1]
        refine ⟨⟨[], by simp⟩, by omega, ?_⟩
        intro _
        refine ⟨by omega, by simp, ?_, by simp⟩
        intro k hk1 hk2
        omega

lemma gc02m1_write_table_go_fail_spec (bus : Bus) :
    ∀ (fuel : Nat) (table : List Reg8) (st : GC02M1State),
      (∃ tail, (gc02m1_write_table_go bus fuel st table).2.writes
        = st.writes ++ tail) ∧
      st.nextOp ≤ (gc02m1_write_table_go bus fuel st table).2.nextOp ∧
      ((gc02m1_write_table_go bus fuel st table).1 ≠ 0 →
        st.nextOp < (gc02m1_write_table_go bus fuel st table).2.nextOp ∧
        (gc02m1_write_table_go bus fuel st table).1 =
          bus.err ((gc02m1_write_table_go bus fuel st table).2.nextOp - 1) ∧
        (∀ k, st.nextOp ≤ k →
          k < (gc02m1_write_table_go bus fuel st table).2.nextOp - 1 →
          bus.err k = 0) ∧
        (gc02m1_write_table_go bus fuel st table).2.writes.length =
          st.writes.length +
            ((gc02m1_write_table_go bus fuel st table).2.nextOp - 1
              - st.nextOp)) := by
  intro fuel
  induction fuel with
  | zero =>
    intro table st
    refine ⟨⟨[], by simp [gc02m1_write_table_go]⟩,
      by simp [gc02m1_write_table_go], ?_⟩
    intro hne
    rw [gc02m1_write_table_go] at hne
    exact absurd rfl hne
  | succ fuel ih =>
    intro table st
    cases table with
    | nil =>
      refine ⟨⟨[], by simp [gc02m1_write_table_go]⟩,
        by simp [gc02m1_write_table_go], ?_⟩
      intro hne
      rw [gc02m1_write_table_go] at hne
      exact absurd rfl hne
    | cons t rest =>
      by_cases hend : t.addr = 1
      · refine ⟨⟨[], by simp [gc02m1_write_table_go, hend]⟩,
          by simp [gc02m1_write_table_go, hend], ?_⟩
        intro hne
        rw [gc02m1_write_table_go] at hne
        simp [hend] at hne
      · by_cases hwait : t.addr = 0
        · have hstep : gc02m1_write_table_go bus (fuel + 1) st (t :: rest)
              = gc02m1_write_table_go bus fuel st rest := by
            rw [gc02m1_write_table_go]
            simp [hend, hwait]
          rw [hstep]
          exact ih rest st
        · by_cases herr : bus.err st.nextOp = 0
          · have hstep : gc02m1_write_table_go bus (fuel + 1) st (t :: rest)
                = gc02m1_write_table_go bus fuel
                  { st with writes := st.writes ++ [(t.addr, ((t :: rest).take (gc02m1_burst_len t rest)).map Reg8.val)], nextOp := st.nextOp + 1 }
                  (rest.drop (gc02m1_burst_len t rest - 1)) := by
              rw [gc02m1_write_table_go]
              simp [hend, hwait, gc02m1_bulk_write, herr]
            obtain ⟨⟨tail, htail⟩, hmono, himp⟩ :=
              ih (rest.drop (gc02m1_burst_len t rest - 1))
                { st with writes := st.writes ++ [(t.addr, ((t :: rest).take (gc02m1_burst_len t rest)).map Reg8.val)], nextOp := st.nextOp + 1 }
            simp only [] at htail hmono himp
            rw [hstep]
            refine ⟨⟨(t.addr, ((t :: rest).take (gc02m1_burst_len t rest)).map Reg8.val)
                :: tail, by rw [htail]; simp⟩, by omega, ?_⟩
            intro hne
            obtain ⟨hlt, hret, hzero, hlen⟩ := himp hne
            have hlen2 : (st.writes ++ [(t.addr, ((t :: rest).take (gc02m1_burst_len t rest)).map Reg8.val)]).length = st.writes.length + 1 := by simp
            rw [hlen2] at hlen
            refine ⟨by omega, hret, ?_, by omega⟩
            intro k hk1 hk2
            rcases Nat.eq_or_lt_of_le hk1 with hk | hk
            · rw [← hk]
              exact herr
            · exact hzero k (by omega) hk2
          · have hstep : gc02m1_write_table_go bus (fuel + 1) st (t :: rest)
                = (bus.err st.nextOp, { st with nextOp := st.nextOp + 1 }) := by
              rw [gc02m1_write_table_go]
              simp [hend, hwait, gc02m1_bulk_write, herr]
            rw [hstep]
            refine ⟨⟨[], by simp⟩, by simp, ?_⟩
            intro _
            refine ⟨by simp, by simp, ?_, by simp⟩
            intro k hk1 hk2
            simp only [] at hk2
            omega

lemma gc02m1_burst_len_bounds (t : Reg8) (rest : List Reg8) :
    1 ≤ gc02m1_burst_len t rest ∧ gc02m1_burst_len t rest ≤ 4 := by
  rcases rest with _ | ⟨r1, _ | ⟨r2, _ | ⟨r3, rest3⟩⟩⟩ <;>
    simp only [gc02m1_burst_len] <;>
    first
    | omega
    | (split_ifs <;> omega)

lemma gc02m1_burst_len_le_length (t : Reg8) (rest : List Reg8) :
    gc02m1_burst_len t rest ≤ (t :: rest).length := by
  rcases rest with _ | ⟨r1, _ | ⟨r2, _ | ⟨r3, rest3⟩⟩⟩ <;>
    simp only [gc02m1_burst_len, List.length_cons] <;>
    first
    | omega
    | (split_ifs <;> omega)

lemma gc02m1_burst_len_addrs (t : Reg8) (rest : List Reg8) :
    ∀ j, j < gc02m1_burst_len t rest →
      ((t :: rest).getD j (Reg8.mk 0 0)).addr = t.addr + j := by
  rcases rest with _ | ⟨r1, _ | ⟨r2, _ | ⟨r3, rest3⟩⟩⟩ <;>
    simp only [gc02m1_burst_len] <;>
    first
    | (intro j hj
       interval_cases j <;> simp_all [List.getD])
    | (split_ifs <;> intro j hj <;> interval_cases j <;> simp_all [List.getD])

lemma gc02m1_burst_emit_mem (t : Reg8) (rest : List Reg8) :
    ∀ j, j < (((t :: rest).take (gc02m1_burst_len t rest)).map Reg8.val).length →
      Reg8.mk (t.addr + j)
          ((((t :: rest).take (gc02m1_burst_len t rest)).map Reg8.val).getD j 0)
        ∈ t :: rest := by
  intro j hj
  have hlen := gc02m1_burst_len_le_length t rest
  have hjn : j < gc02m1_burst_len t rest := by
    simp [List.length_take] at hj
    omega
  have hjl : j < (t :: rest).length := lt_of_lt_of_le hjn hlen
  have haddr := gc02m1_burst_len_addrs t rest j hjn
  have hgd : (t :: rest).getD j (Reg8.mk 0 0) = (t :: rest).get ⟨j, hjl⟩ := by
    rw [List.getD_eq_getElem _ _ hjl]
    simp
  have hval : (((t :: rest).take (gc02m1_burst_len t rest)).map Reg8.val).getD j 0
      = ((t :: rest).get ⟨j, hjl⟩).val := by
    rw [List.getD_eq_getElem _ _ hj]
    simp only [List.getElem_map, List.getElem_take, List.get_eq_getElem]
  rw [hval]
  rw [hgd] at haddr
  have hmk : Reg8.mk (t.addr + j) (((t :: rest).get ⟨j, hjl⟩).val)
      = (t :: rest).get ⟨j, hjl⟩ := by
    rw [← haddr]
  rw [hmk]
  exact List.get_mem _ _ _

lemma gc02m1_write_table_go_bursts (bus : Bus) :
    ∀ (fuel : Nat) (table : List Reg8) (st : GC02M1State),
      ∀ b ∈ (gc02m1_write_table_go bus fuel st table).2.writes.drop st.writes.length,
        1 ≤ b.2.length ∧ b.2.length ≤ 4 ∧
        ∀ j, j < b.2.length → Reg8.mk (b.1 + j) (b.2.getD j 0) ∈ table := by
  intro fuel
  induction fuel with
  | zero =>
    intro table st b hb
    rw [gc02m1_write_table_go] at hb
    simp [List.drop_length] at hb
  | succ fuel ih =>
    intro table st b hb
    cases table with
    | nil =>
      rw [gc02m1_write_table_go] at hb
      simp [List.drop_length] at hb
    | cons t rest =>
      by_cases hend : t.addr = 1
      · rw [gc02m1_write_table_go] at hb
        simp [hend, List.drop_length] at hb
      · by_cases hwait : t.addr = 0
        · have hstep : gc02m1_write_table_go bus (fuel + 1) st (t :: rest)
              = gc02m1_write_table_go bus fuel st rest := by
            rw [gc02m1_write_table_go]
            simp [hend, hwait]
          rw [hstep] at hb
          obtain ⟨h1, h2, h3⟩ := ih rest st b hb
          exact ⟨h1, h2, fun j hj => List.mem_cons_of_mem t (h3 j hj)⟩
        · by_cases herr : bus.err st.nextOp = 0
          · have hstep : gc02m1_write_table_go bus (fuel + 1) st (t :: rest)
                = gc02m1_write_table_go bus fuel
                  { st with writes := st.writes ++ [(t.addr, ((t :: rest).take (gc02m1_burst_len t rest)).map Reg8.val)], nextOp := st.nextOp + 1 }
                  (rest.drop (gc02m1_burst_len t rest - 1)) := by
              rw [gc02m1_write_table_go]
              simp [hend, hwait, gc02m1_bulk_write, herr]
            obtain ⟨tail, htail⟩ :=
              (gc02m1_write_table_go_fail_spec bus fuel
                (rest.drop (gc02m1_burst_len t rest - 1))
                { st with writes := st.writes ++ [(t.addr, ((t :: rest).take (gc02m1_burst_len t rest)).map Reg8.val)], nextOp := st.nextOp + 1 }).1
            simp only [] at htail
            rw [hstep] at hb
            rw [htail, List.append_assoc, List.drop_left] at hb
            rw [List.singleton_append, List.mem_cons] at hb
            rcases hb with hb | hb
            · subst hb
              have hbounds := gc02m1_burst_len_bounds t rest
              have hlenle := gc02m1_burst_len_le_length t rest
              have hvlen : (((t :: rest).take (gc02m1_burst_len t rest)).map Reg8.val).length
                  = gc02m1_burst_len t rest := by
                rw [List.length_map, List.length_take]
                exact Nat.min_eq_left hlenle
              refine ⟨by rw [hvlen]; exact hbounds.1, by rw [hvlen]; exact hbounds.2, ?_⟩
              intro j hj
              exact gc02m1_burst_emit_mem t rest j hj
            · have htl : tail =
                  (gc02m1_write_table_go bus fuel
                    { st with writes := st.writes ++ [(t.addr, ((t :: rest).take (gc02m1_burst_len t rest)).map Reg8.val)], nextOp := st.nextOp + 1 }
                    (rest.drop (gc02m1_burst_len t rest - 1))).2.writes.drop
                    (st.writes ++ [(t.addr, ((t :: rest).take (gc02m1_burst_len t rest)).map Reg8.val)]).length := by
                rw [htail, List.drop_left]
              rw [htl] at hb
              obtain ⟨h1, h2, h3⟩ := ih (rest.drop (gc02m1_burst_len t rest - 1))
                { st with writes := st.writes ++ [(t.addr, ((t :: rest).take (gc02m1_burst_len t rest)).map Reg8.val)], nextOp := st.nextOp + 1 }
                b (by simpa using hb)
              refine ⟨h1, h2, fun j hj => ?_⟩
              exact List.mem_cons_of_mem t (List.drop_subset _ rest (h3 j hj))
          · have hstep : gc02m1_write_table_go bus (fuel + 1) st (t :: rest)
                = (bus.err st.nextOp, { st with nextOp := st.nextOp + 1 }) := by
              rw [gc02m1_write_table_go]
              simp [hend, hwait, gc02m1_bulk_write, herr]
            rw [hstep] at hb
            simp [List.drop_length] at hb

lemma mem_drop_trans {α : Type} (A B C : List α) (P : α → Prop)
    (hAB : ∃ t, B = A ++ t) (hBC : ∃ t, C = B ++ t)
    (h1 : ∀ b ∈ B.drop A.length, P b) (h2 : ∀ b ∈ C.drop B.length, P b) :
    ∀ b ∈ C.drop A.length, P b := by
  obtain ⟨t1, rfl⟩ := hAB
  obtain ⟨t2, rfl⟩ := hBC
  intro b hb
  rw [List.append_assoc, List.drop_left] at hb
  rcases List.mem_append.mp hb with h | h
  · exact h1 b (by rw [List.drop_left]; exact h)
  · exact h2 b (by rw [List.drop_left]; exact h)

lemma gc02m1_bulk_write_spec (bus : Bus) (st : GC02M1State) (addr : Nat)
    (vals : List Nat) :
    (∃ tail, (gc02m1_bulk_write bus st addr vals).2.writes = st.writes ++ tail) ∧
    (gc02m1_bulk_write bus st addr vals).2.pmRefs = st.pmRefs ∧
    ((gc02m1_bulk_write bus st addr vals).1 = 0 ∨
      (gc02m1_bulk_write bus st addr vals).1 = bus.err st.nextOp) ∧
    (∀ b ∈ (gc02m1_bulk_write bus st addr vals).2.writes.drop st.writes.length,
      b.1 = addr) ∧
    ((gc02m1_bulk_write bus st addr vals).1 ≠ 0 →
      (gc02m1_bulk_write bus st addr vals).2.writes = st.writes) := by
  by_cases herr : bus.err st.nextOp = 0
  · refine ⟨⟨[(addr, vals)], by simp [gc02m1_bulk_write, herr]⟩,
      by simp [gc02m1_bulk_write, herr], Or.inl (by simp [gc02m1_bulk_write, herr]), ?_, ?_⟩
    · intro b hb
      simp [gc02m1_bulk_write, herr, List.drop_left] at hb
      rw [hb]
    · intro hne
      exact absurd (by simp [gc02m1_bulk_write, herr]) hne
  · refine ⟨⟨[], by simp [gc02m1_bulk_write, herr]⟩,
      by simp [gc02m1_bulk_write, herr], Or.inr (by simp [gc02m1_bulk_write, herr]), ?_, ?_⟩
    · intro b hb
      simp [gc02m1_bulk_write, herr, List.drop_length] at hb
    · intro hne
      simp [gc02m1_bulk_write, herr]

lemma gc02m1_write_table_go_preserves (bus : Bus) :
    ∀ (fuel : Nat) (table : List Reg8) (st : GC02M1State),
      (gc02m1_write_table_go bus fuel st table).2.pmRefs = st.pmRefs ∧
      (gc02m1_write_table_go bus fuel st table).2.ctrls = st.ctrls ∧
      (gc02m1_write_table_go bus fuel st table).2.fmtWidth = st.fmtWidth ∧
      (gc02m1_write_table_go bus fuel st table).2.fmtHeight = st.fmtHeight := by
  intro fuel
  induction fuel with
  | zero =>
    intro table st
    rw [gc02m1_write_table_go]
    exact ⟨rfl, rfl, rfl, rfl⟩
  | succ fuel ih =>
    intro table st
    cases table with
    | nil =>
      rw [gc02m1_write_table_go]
      exact ⟨rfl, rfl, rfl, rfl⟩
    | cons t rest =>
      by_cases hend : t.addr = 1
      · rw [gc02m1_write_table_go]
        simp [hend]
      · by_cases hwait : t.addr = 0
        · have hstep : gc02m1_write_table_go bus (fuel + 1) st (t :: rest)
              = gc02m1_write_table_go bus fuel st rest := by
            rw [gc02m1_write_table_go]
            simp [hend, hwait]
          rw [hstep]
          exact ih rest st
        · by_cases herr : bus.err st.nextOp = 0
          · have hstep : gc02m1_write_table_go bus (fuel + 1) st (t :: rest)
                = gc02m1_write_table_go bus fuel
                  { st with writes := st.writes ++ [(t.addr, ((t :: rest).take (gc02m1_burst_len t rest)).map Reg8.val)], nextOp := st.nextOp + 1 }
                  (rest.drop (gc02m1_burst_len t rest - 1)) := by
              rw [gc02m1_write_table_go]
              simp [hend, hwait, gc02m1_bulk_write, herr]
            rw [hstep]
            simpa using ih (rest.drop (gc02m1_burst_len t rest - 1))
              { st with writes := st.writes ++ [(t.addr, ((t :: rest).take (gc02m1_burst_len t rest)).map Reg8.val)], nextOp := st.nextOp + 1 }
          · have hstep : gc02m1_write_table_go bus (fuel + 1) st (t :: rest)
                = (bus.err st.nextOp, { st with nextOp := st.nextOp + 1 }) := by
              rw [gc02m1_write_table_go]
              simp [hend, hwait, gc02m1_bulk_write, herr]
            rw [hstep]
            exact ⟨rfl, rfl, rfl, rfl⟩

lemma gc02m1_write_table_addrs (bus : Bus) (st : GC02M1State)
    (table : List Reg8) :
    ∀ b ∈ (gc02m1_write_table bus st table).2.writes.drop st.writes.length,
      ∃ e ∈ table, b.1 = e.addr := by
  intro b hb
  obtain ⟨h1, h2, h3⟩ :=
    gc02m1_write_table_go_bursts bus table.length table st b hb
  refine ⟨Reg8.mk (b.1 + 0) (b.2.getD 0 0), h3 0 (by omega), by simp⟩

lemma gc02m1_bulk_chain2 (bus : Bus) (st : GC02M1State) (a1 : Nat)
    (v1 : List Nat) (a2 : Nat) (v2 : List Nat) :
    (∃ tail, (gc02m1_bulk_write bus (gc02m1_bulk_write bus st a1 v1).2 a2 v2).2.writes
      = st.writes ++ tail) ∧
    (gc02m1_bulk_write bus (gc02m1_bulk_write bus st a1 v1).2 a2 v2).2.pmRefs
      = st.pmRefs ∧
    (∀ b ∈ (gc02m1_bulk_write bus (gc02m1_bulk_write bus st a1 v1).2 a2 v2).2.writes.drop
        st.writes.length, b.1 = a1 ∨ b.1 = a2) := by
  obtain ⟨⟨t1, h1w⟩, h1p, _, h1m, _⟩ := gc02m1_bulk_write_spec bus st a1 v1
  obtain ⟨⟨t2, h2w⟩, h2p, _, h2m, _⟩ :=
    gc02m1_bulk_write_spec bus (gc02m1_bulk_write bus st a1 v1).2 a2 v2
  refine ⟨⟨t1 ++ t2, by rw [h2w, h1w, List.append_assoc]⟩,
    by rw [h2p, h1p], ?_⟩
  exact mem_drop_trans st.writes (gc02m1_bulk_write bus st a1 v1).2.writes
    (gc02m1_bulk_write bus (gc02m1_bulk_write bus st a1 v1).2 a2 v2).2.writes
    (fun b => b.1 = a1 ∨ b.1 = a2) ⟨t1, h1w⟩ ⟨t2, h2w⟩
    (fun b hb => Or.inl (h1m b hb)) (fun b hb => Or.inr (h2m b hb))

lemma gc02m1_bulk_chain3 (bus : Bus) (st : GC02M1State) (a1 : Nat)
    (v1 : List Nat) (a2 : Nat) (v2 : List Nat) (a3 : Nat) (v3 : List Nat) :
    (∃ tail,
      (gc02m1_bulk_write bus
        (gc02m1_bulk_write bus (gc02m1_bulk_write bus st a1 v1).2 a2 v2).2
        a3 v3).2.writes = st.writes ++ tail) ∧
    (gc02m1_bulk_write bus
      (gc02m1_bulk_write bus (gc02m1_bulk_write bus st a1 v1).2 a2 v2).2
      a3 v3).2.pmRefs = st.pmRefs ∧
    (∀ b ∈ (gc02m1_bulk_write bus
        (gc02m1_bulk_write bus (gc02m1_bulk_write bus st a1 v1).2 a2 v2).2
        a3 v3).2.writes.drop st.writes.length,
      b.1 = a1 ∨ b.1 = a2 ∨ b.1 = a3) := by
  obtain ⟨⟨t1, h1w⟩, h1p, h1m⟩ := gc02m1_bulk_chain2 bus st a1 v1 a2 v2
  obtain ⟨⟨t2, h2w⟩, h2p, _, h2m, _⟩ :=
    gc02m1_bulk_write_spec bus
      (gc02m1_bulk_write bus (gc02m1_bulk_write bus st a1 v1).2 a2 v2).2 a3 v3
  refine ⟨⟨t1 ++ t2, by rw [h2w, h1w, List.append_assoc]⟩,
    by rw [h2p, h1p], ?_⟩
  exact mem_drop_trans st.writes
    (gc02m1_bulk_write bus (gc02m1_bulk_write bus st a1 v1).2 a2 v2).2.writes
    _ (fun b => b.1 = a1 ∨ b.1 = a2 ∨ b.1 = a3) ⟨t1, h1w⟩ ⟨t2, h2w⟩
    (fun b hb => (h1m b hb).imp id Or.inl) (fun b hb => Or.inr (Or.inr (h2m b hb)))

lemma gc02m1_bulk_chain4 (bus : Bus) (st : GC02M1State) (a1 : Nat)
    (v1 : List Nat) (a2 : Nat) (v2 : List Nat) (a3 : Nat) (v3 : List Nat)
    (a4 : Nat) (v4 : List Nat) :
    (∃ tail,
      (gc02m1_bulk_write bus (gc02m1_bulk_write bus
        (gc02m1_bulk_write bus (gc02m1_bulk_write bus st a1 v1).2 a2 v2).2
        a3 v3).2 a4 v4).2.writes = st.writes ++ tail) ∧
    (gc02m1_bulk_write bus (gc02m1_bulk_write bus
      (gc02m1_bulk_write bus (gc02m1_bulk_write bus st a1 v1).2 a2 v2).2
      a3 v3).2 a4 v4).2.pmRefs = st.pmRefs ∧
    (∀ b ∈ (gc02m1_bulk_write bus (gc02m1_bulk_write bus
        (gc02m1_bulk_write bus (gc02m1_bulk_write bus st a1 v1).2 a2 v2).2
        a3 v3).2 a4 v4).2.writes.drop st.writes.length,
      b.1 = a1 ∨ b.1 = a2 ∨ b.1 = a3 ∨ b.1 = a4) := by
  obtain ⟨⟨t1, h1w⟩, h1p, h1m⟩ := gc02m1_bulk_chain3 bus st a1 v1 a2 v2 a3 v3
  obtain ⟨⟨t2, h2w⟩, h2p, _, h2m, _⟩ :=
    gc02m1_bulk_write_spec bus
      (gc02m1_bulk_write bus
        (gc02m1_bulk_write bus (gc02m1_bulk_write bus st a1 v1).2 a2 v2).2
        a3 v3).2 a4 v4
  refine ⟨⟨t1 ++ t2, by rw [h2w, h1w, List.append_assoc]⟩,
    by rw [h2p, h1p], ?_⟩
  exact mem_drop_trans st.writes
    (gc02m1_bulk_write bus
      (gc02m1_bulk_write bus (gc02m1_bulk_write bus st a1 v1).2 a2 v2).2
      a3 v3).2.writes
    _ (fun b => b.1 = a1 ∨ b.1 = a2 ∨ b.1 = a3 ∨ b.1 = a4) ⟨t1, h1w⟩ ⟨t2, h2w⟩
    (fun b hb => (h1m b hb).imp id (Or.imp id Or.inl))
    (fun b hb => Or.inr (Or.inr (Or.inr (h2m b hb))))

lemma gc02m1_set_ctrl_spec (bus : Bus) (st : GC02M1State) (id v : Nat) :
    (∃ tail, (gc02m1_set_ctrl bus st id v).2.writes = st.writes ++ tail) ∧
    (gc02m1_set_ctrl bus st id v).2.pmRefs = st.pmRefs ∧
    ((gc02m1_set_ctrl bus st id v).1 = 0 ∨ (gc02m1_set_ctrl bus st id v).1 = -22) ∧
    (∀ b ∈ (gc02m1_set_ctrl bus st id v).2.writes.drop st.writes.length,
      b.1 ≠ 0x100) := by
  by_cases hpm : st.pmRefs = 0
  · refine ⟨⟨[], by simp [gc02m1_set_ctrl, V4L2_CID_EXPOSURE, V4L2_CID_GAIN, V4L2_CID_HFLIP, V4L2_CID_VFLIP, V4L2_CID_TEST_PATTERN, hpm]⟩, by simp [gc02m1_set_ctrl, V4L2_CID_EXPOSURE, V4L2_CID_GAIN, V4L2_CID_HFLIP, V4L2_CID_VFLIP, V4L2_CID_TEST_PATTERN, hpm],
      Or.inl (by simp [gc02m1_set_ctrl, V4L2_CID_EXPOSURE, V4L2_CID_GAIN, V4L2_CID_HFLIP, V4L2_CID_VFLIP, V4L2_CID_TEST_PATTERN, hpm]), ?_⟩
    intro b hb
    simp [gc02m1_set_ctrl, V4L2_CID_EXPOSURE, V4L2_CID_GAIN, V4L2_CID_HFLIP, V4L2_CID_VFLIP, V4L2_CID_TEST_PATTERN, hpm, List.drop_length] at hb
  · by_cases h1 : id = V4L2_CID_EXPOSURE
    · obtain ⟨⟨t1, h1w⟩, h1p, _, h1m, _⟩ :=
        gc02m1_bulk_write_spec bus { st with pmRefs := st.pmRefs + 1 } 0x03
          [(v >>> 8) &&& 0x3F, v &&& 0xFF]
      simp only [] at h1w h1p h1m
      refine ⟨⟨t1, by simp [gc02m1_set_ctrl, V4L2_CID_EXPOSURE, V4L2_CID_GAIN, V4L2_CID_HFLIP, V4L2_CID_VFLIP, V4L2_CID_TEST_PATTERN, hpm, h1, h1w]⟩,
        by simp [gc02m1_set_ctrl, V4L2_CID_EXPOSURE, V4L2_CID_GAIN, V4L2_CID_HFLIP, V4L2_CID_VFLIP, V4L2_CID_TEST_PATTERN, hpm, h1, h1p], Or.inl (by simp [gc02m1_set_ctrl, V4L2_CID_EXPOSURE, V4L2_CID_GAIN, V4L2_CID_HFLIP, V4L2_CID_VFLIP, V4L2_CID_TEST_PATTERN, hpm, h1]), ?_⟩
      intro b hb
      simp only [gc02m1_set_ctrl, V4L2_CID_EXPOSURE, V4L2_CID_GAIN, V4L2_CID_HFLIP, V4L2_CID_VFLIP, V4L2_CID_TEST_PATTERN, hpm, h1, if_neg hpm, if_pos rfl] at hb
      have := h1m b (by simpa using hb)
      omega
    · by_cases h2 : id = V4L2_CID_GAIN
      · obtain ⟨⟨t1, h1w⟩, h1p, h1m⟩ :=
          gc02m1_bulk_chain4 bus { st with pmRefs := st.pmRefs + 1 }
            0xfe [1] 0xfe [0] 0xb6 [(v >>> 0x12) &&& 0xFF]
            0xb1 [(v >>> (8 + 0x03)) &&& 0x1F, (v >>> 0x03) &&& 0xFF]
        simp only [] at h1w h1p h1m
        refine ⟨⟨t1, by simp [gc02m1_set_ctrl, V4L2_CID_EXPOSURE, V4L2_CID_GAIN, V4L2_CID_HFLIP, V4L2_CID_VFLIP, V4L2_CID_TEST_PATTERN, hpm, h1, h2, h1w]⟩,
          by simp [gc02m1_set_ctrl, V4L2_CID_EXPOSURE, V4L2_CID_GAIN, V4L2_CID_HFLIP, V4L2_CID_VFLIP, V4L2_CID_TEST_PATTERN, hpm, h1, h2, h1p],
          Or.inl (by simp [gc02m1_set_ctrl, V4L2_CID_EXPOSURE, V4L2_CID_GAIN, V4L2_CID_HFLIP, V4L2_CID_VFLIP, V4L2_CID_TEST_PATTERN, hpm, h1, h2]), ?_⟩
        intro b hb
        simp only [gc02m1_set_ctrl, V4L2_CID_EXPOSURE, V4L2_CID_GAIN, V4L2_CID_HFLIP, V4L2_CID_VFLIP, V4L2_CID_TEST_PATTERN, hpm, h1, h2, if_neg hpm, if_pos rfl] at hb
        have := h1m b (by simpa using hb)
        omega
      · by_cases h3 : id = V4L2_CID_VFLIP
        · obtain ⟨⟨t1, h1w⟩, h1p, h1m⟩ :=
            gc02m1_bulk_chain2 bus { st with pmRefs := st.pmRefs + 1 }
              0xfe [0] 0x17 [0x82]
          simp only [] at h1w h1p h1m
          refine ⟨⟨t1, by simp [gc02m1_set_ctrl, V4L2_CID_EXPOSURE, V4L2_CID_GAIN, V4L2_CID_HFLIP, V4L2_CID_VFLIP, V4L2_CID_TEST_PATTERN, hpm, h1, h2, h3, h1w]⟩,
            by simp [gc02m1_set_ctrl, V4L2_CID_EXPOSURE, V4L2_CID_GAIN, V4L2_CID_HFLIP, V4L2_CID_VFLIP, V4L2_CID_TEST_PATTERN, hpm, h1, h2, h3, h1p],
            Or.inl (by simp [gc02m1_set_ctrl, V4L2_CID_EXPOSURE, V4L2_CID_GAIN, V4L2_CID_HFLIP, V4L2_CID_VFLIP, V4L2_CID_TEST_PATTERN, hpm, h1, h2, h3]), ?_⟩
          intro b hb
          simp only [gc02m1_set_ctrl, V4L2_CID_EXPOSURE, V4L2_CID_GAIN, V4L2_CID_HFLIP, V4L2_CID_VFLIP, V4L2_CID_TEST_PATTERN, hpm, h1, h2, h3, if_neg hpm, if_pos rfl] at hb
          have := h1m b (by simpa using hb)
          omega
        · by_cases h4 : id = V4L2_CID_HFLIP
          · obtain ⟨⟨t1, h1w⟩, h1p, h1m⟩ :=
              gc02m1_bulk_chain2 bus { st with pmRefs := st.pmRefs + 1 }
                0xfe [0] 0x17 [0x81]
            simp only [] at h1w h1p h1m
            refine ⟨⟨t1, by simp [gc02m1_set_ctrl, V4L2_CID_EXPOSURE, V4L2_CID_GAIN, V4L2_CID_HFLIP, V4L2_CID_VFLIP, V4L2_CID_TEST_PATTERN, hpm, h1, h2, h3, h4, h1w]⟩,
              by simp [gc02m1_set_ctrl, V4L2_CID_EXPOSURE, V4L2_CID_GAIN, V4L2_CID_HFLIP, V4L2_CID_VFLIP, V4L2_CID_TEST_PATTERN, hpm, h1, h2, h3, h4, h1p],
              Or.inl (by simp [gc02m1_set_ctrl, V4L2_CID_EXPOSURE, V4L2_CID_GAIN, V4L2_CID_HFLIP, V4L2_CID_VFLIP, V4L2_CID_TEST_PATTERN, hpm, h1, h2, h3, h4]), ?_⟩
            intro b hb
            simp only [gc02m1_set_ctrl, V4L2_CID_EXPOSURE, V4L2_CID_GAIN, V4L2_CID_HFLIP, V4L2_CID_VFLIP, V4L2_CID_TEST_PATTERN, hpm, h1, h2, h3, h4, if_neg hpm, if_pos rfl] at hb
            have := h1m b (by simpa using hb)
            omega
          · by_cases h5 : id = V4L2_CID_TEST_PATTERN
            · obtain ⟨⟨t1, h1w⟩, h1p, h1m⟩ :=
                gc02m1_bulk_chain3 bus { st with pmRefs := st.pmRefs + 1 }
                  0xfe [1] 0x8c [0x11] 0xfe [0]
              simp only [] at h1w h1p h1m
              refine ⟨⟨t1, by simp [gc02m1_set_ctrl, V4L2_CID_EXPOSURE, V4L2_CID_GAIN, V4L2_CID_HFLIP, V4L2_CID_VFLIP, V4L2_CID_TEST_PATTERN, hpm, h1, h2, h3, h4, h5, h1w]⟩,
                by simp [gc02m1_set_ctrl, V4L2_CID_EXPOSURE, V4L2_CID_GAIN, V4L2_CID_HFLIP, V4L2_CID_VFLIP, V4L2_CID_TEST_PATTERN, hpm, h1, h2, h3, h4, h5, h1p],
                Or.inl (by simp [gc02m1_set_ctrl, V4L2_CID_EXPOSURE, V4L2_CID_GAIN, V4L2_CID_HFLIP, V4L2_CID_VFLIP, V4L2_CID_TEST_PATTERN, hpm, h1, h2, h3, h4, h5]), ?_⟩
              intro b hb
              simp only [gc02m1_set_ctrl, V4L2_CID_EXPOSURE, V4L2_CID_GAIN, V4L2_CID_HFLIP, V4L2_CID_VFLIP, V4L2_CID_TEST_PATTERN, hpm, h1, h2, h3, h4, h5, if_neg hpm,
                if_pos rfl] at hb
              have := h1m b (by simpa using hb)
              omega
            · simp only [V4L2_CID_EXPOSURE] at h1
              simp only [V4L2_CID_GAIN] at h2
              simp only [V4L2_CID_VFLIP] at h3
              simp only [V4L2_CID_HFLIP] at h4
              simp only [V4L2_CID_TEST_PATTERN] at h5
              refine ⟨⟨[], by simp [gc02m1_set_ctrl, V4L2_CID_EXPOSURE, V4L2_CID_GAIN, V4L2_CID_HFLIP, V4L2_CID_VFLIP, V4L2_CID_TEST_PATTERN, hpm, h1, h2, h3, h4, h5]⟩,
                by simp [gc02m1_set_ctrl, V4L2_CID_EXPOSURE, V4L2_CID_GAIN, V4L2_CID_HFLIP, V4L2_CID_VFLIP, V4L2_CID_TEST_PATTERN, hpm, h1, h2, h3, h4, h5],
                Or.inr (by simp [gc02m1_set_ctrl, V4L2_CID_EXPOSURE, V4L2_CID_GAIN, V4L2_CID_HFLIP, V4L2_CID_VFLIP, V4L2_CID_TEST_PATTERN, hpm, h1, h2, h3, h4, h5]), ?_⟩
              intro b hb
              simp [gc02m1_set_ctrl, V4L2_CID_EXPOSURE, V4L2_CID_GAIN, V4L2_CID_HFLIP, V4L2_CID_VFLIP, V4L2_CID_TEST_PATTERN, hpm, h1, h2, h3, h4, h5, List.drop_length] at hb

lemma gc02m1_ctrl_setup_spec (bus : Bus) :
    ∀ (ctrls : List (Nat × Nat)) (st : GC02M1State),
      (∃ tail, (gc02m1_ctrl_setup bus st ctrls).2.writes = st.writes ++ tail) ∧
      (gc02m1_ctrl_setup bus st ctrls).2.pmRefs = st.pmRefs ∧
      ((gc02m1_ctrl_setup bus st ctrls).1 = 0 ∨
        (gc02m1_ctrl_setup bus st ctrls).1 = -22) ∧
      (∀ b ∈ (gc02m1_ctrl_setup bus st ctrls).2.writes.drop st.writes.length,
        b.1 ≠ 0x100) := by
  intro ctrls
  induction ctrls with
  | nil =>
    intro st
    refine ⟨⟨[], by simp [gc02m1_ctrl_setup]⟩, by simp [gc02m1_ctrl_setup],
      Or.inl (by simp [gc02m1_ctrl_setup]), ?_⟩
    intro b hb
    simp [gc02m1_ctrl_setup, List.drop_length] at hb
  | cons c rest ih =>
    intro st
    obtain ⟨⟨t1, h1w⟩, h1p, h1r, h1m⟩ := gc02m1_set_ctrl_spec bus st c.1 c.2
    by_cases hok : (gc02m1_set_ctrl bus st c.1 c.2).1 = 0
    · have hstep : gc02m1_ctrl_setup bus st (c :: rest)
          = gc02m1_ctrl_setup bus (gc02m1_set_ctrl bus st c.1 c.2).2 rest := by
        rw [gc02m1_ctrl_setup]
        simp [hok]
      obtain ⟨⟨t2, h2w⟩, h2p, h2r, h2m⟩ :=
        ih (gc02m1_set_ctrl bus st c.1 c.2).2
      rw [hstep]
      refine ⟨⟨t1 ++ t2, by rw [h2w, h1w, List.append_assoc]⟩,
        by rw [h2p, h1p], h2r, ?_⟩
      exact mem_drop_trans st.writes (gc02m1_set_ctrl bus st c.1 c.2).2.writes
        _ (fun b => b.1 ≠ 0x100) ⟨t1, h1w⟩ ⟨t2, h2w⟩ h1m h2m
    · have hstep : gc02m1_ctrl_setup bus st (c :: rest)
          = gc02m1_set_ctrl bus st c.1 c.2 := by
        rw [gc02m1_ctrl_setup]
        simp [hok]
      rw [hstep]
      exact ⟨⟨t1, h1w⟩, h1p, h1r, h1m⟩

lemma gc02m1_write_table_ret (bus : Bus) (st : GC02M1State) (table : List Reg8) :
    (gc02m1_write_table bus st table).1 = 0 ∨
      ∃ k, bus.err k = (gc02m1_write_table bus st table).1 := by
  by_cases h : (gc02m1_write_table bus st table).1 = 0
  · exact Or.inl h
  · obtain ⟨_, hret, _, _⟩ :=
      ((gc02m1_write_table_go_fail_spec bus table.length table st).2.2) h
    exact Or.inr ⟨_, hret.symm⟩

lemma gc02m1_find_nearest_loop_mem (w h : Nat) :
    ∀ (l : List GC02M1Mode) (best : GC02M1Mode) (bd : Int),
      gc02m1_find_nearest_loop w h l best bd = best ∨
        gc02m1_find_nearest_loop w h l best bd ∈ l := by
  intro l
  induction l with
  | nil => intro best bd; exact Or.inl rfl
  | cons m rest ih =>
    intro best bd
    rw [gc02m1_find_nearest_loop]
    by_cases hc : |(m.width : Int) - (w : Int)| + |(m.height : Int) - (h : Int)| < bd
    · rw [if_pos hc]
      rcases ih m _ with h1 | h1
      · exact Or.inr (by rw [h1]; exact List.mem_cons_self m rest)
      · exact Or.inr (List.mem_cons_of_mem m h1)
    · rw [if_neg hc]
      rcases ih best bd with h1 | h1
      · exact Or.inl h1
      · exact Or.inr (List.mem_cons_of_mem m h1)

lemma gc02m1_find_nearest_tables (w h : Nat) :
    (gc02m1_find_nearest w h).reg_table = mode_1600x1200 ∨
      (gc02m1_find_nearest w h).reg_table = mode_1600x1200_custom1 := by
  have hm : gc02m1_find_nearest w h ∈ gc02m1_modes := by
    rw [gc02m1_find_nearest]
    simp only [gc02m1_modes]
    rcases gc02m1_find_nearest_loop_mem w h
      [⟨1600, 1200, mode_1600x1200_custom1⟩]
      ⟨1600, 1200, mode_1600x1200⟩
      (|((1600 : Nat) : Int) - (w : Int)| + |((1200 : Nat) : Int) - (h : Int)|)
      with h1 | h1
    · rw [h1]; exact List.mem_cons_self _ _
    · exact List.mem_cons_of_mem _ h1
  simp only [gc02m1_modes, List.mem_cons, List.mem_singleton] at hm
  rcases hm with hm | hm | hm
  · exact Or.inl (by rw [hm])
  · exact Or.inr (by rw [hm])
  · exact absurd hm (List.not_mem_nil _)

set_option maxRecDepth 40000 in
lemma gc02m1_start_streaming_spec (bus : Bus) (st : GC02M1State) :
    (∃ tail, (gc02m1_start_streaming bus st).2.writes = st.writes ++ tail) ∧
    (gc02m1_start_streaming bus st).2.pmRefs = st.pmRefs ∧
    ((gc02m1_start_streaming bus st).1 ≠ 0 →
      ((∃ k, bus.err k = (gc02m1_start_streaming bus st).1) ∨
        (gc02m1_start_streaming bus st).1 = -22) ∧
      (∀ b ∈ (gc02m1_start_streaming bus st).2.writes.drop st.writes.length,
        b.1 ≠ 0x100)) := by
  obtain ⟨tail1, hA1go⟩ :=
    (gc02m1_write_table_go_fail_spec bus mode_table_common.length
      mode_table_common st).1
  have hA1 : (gc02m1_write_table bus st mode_table_common).2.writes
      = st.writes ++ tail1 := hA1go
  have hP1 : (gc02m1_write_table bus st mode_table_common).2.pmRefs
      = st.pmRefs :=
    (gc02m1_write_table_go_preserves bus mode_table_common.length
      mode_table_common st).1
  have hM1 : ∀ b ∈ (gc02m1_write_table bus st mode_table_common).2.writes.drop
      st.writes.length, b.1 ≠ 0x100 := by
    intro b hb
    obtain ⟨e, he, hba⟩ := gc02m1_write_table_addrs bus st mode_table_common b hb
    have hall : ∀ x ∈ mode_table_common, x.addr ≠ 0x100 := by decide
    rw [hba]
    exact hall e he
  have hR1 := gc02m1_write_table_ret bus st mode_table_common
  have hall2 : ∀ x ∈ (gc02m1_find_nearest st.fmtWidth st.fmtHeight).reg_table,
      x.addr ≠ 0x100 := by
    rcases gc02m1_find_nearest_tables st.fmtWidth st.fmtHeight with ht | ht <;>
      rw [ht] <;> decide
  obtain ⟨tail2, hA2go⟩ :=
    (gc02m1_write_table_go_fail_spec bus
      (gc02m1_find_nearest st.fmtWidth st.fmtHeight).reg_table.length
      (gc02m1_find_nearest st.fmtWidth st.fmtHeight).reg_table
      (gc02m1_write_table bus st mode_table_common).2).1
  have hA2 : (gc02m1_write_table bus (gc02m1_write_table bus st mode_table_common).2
      (gc02m1_find_nearest st.fmtWidth st.fmtHeight).reg_table).2.writes
      = (gc02m1_write_table bus st mode_table_common).2.writes ++ tail2 := hA2go
  have hP2 : (gc02m1_write_table bus (gc02m1_write_table bus st mode_table_common).2
      (gc02m1_find_nearest st.fmtWidth st.fmtHeight).reg_table).2.pmRefs
      = (gc02m1_write_table bus st mode_table_common).2.pmRefs :=
    (gc02m1_write_table_go_preserves bus
      (gc02m1_find_nearest st.fmtWidth st.fmtHeight).reg_table.length
      (gc02m1_find_nearest st.fmtWidth st.fmtHeight).reg_table
      (gc02m1_write_table bus st mode_table_common).2).1
  have hM2 : ∀ b ∈ (gc02m1_write_table bus
      (gc02m1_write_table bus st mode_table_common).2
      (gc02m1_find_nearest st.fmtWidth st.fmtHeight).reg_table).2.writes.drop
      (gc02m1_write_table bus st mode_table_common).2.writes.length,
      b.1 ≠ 0x100 := by
    intro b hb
    obtain ⟨e, he, hba⟩ := gc02m1_write_table_addrs bus
      (gc02m1_write_table bus st mode_table_common).2
      (gc02m1_find_nearest st.fmtWidth st.fmtHeight).reg_table b hb
    rw [hba]
    exact hall2 e he
  have hR2 := gc02m1_write_table_ret bus
    (gc02m1_write_table bus st mode_table_common).2
    (gc02m1_find_nearest st.fmtWidth st.fmtHeight).reg_table
  obtain ⟨⟨tail3, hA3⟩, hP3, hR3, hM3⟩ :=
    gc02m1_ctrl_setup_spec bus
      (gc02m1_write_table bus (gc02m1_write_table bus st mode_table_common).2
        (gc02m1_find_nearest st.fmtWidth st.fmtHeight).reg_table).2.ctrls
      (gc02m1_write_table bus (gc02m1_write_table bus st mode_table_common).2
        (gc02m1_find_nearest st.fmtWidth st.fmtHeight).reg_table).2
  obtain ⟨⟨tail4, hA4⟩, hP4, hR4, hM4, hfail4⟩ :=
    gc02m1_bulk_write_spec bus
      (gc02m1_ctrl_setup bus
        (gc02m1_write_table bus (gc02m1_write_table bus st mode_table_common).2
          (gc02m1_find_nearest st.fmtWidth st.fmtHeight).reg_table).2
        (gc02m1_write_table bus (gc02m1_write_table bus st mode_table_common).2
          (gc02m1_find_nearest st.fmtWidth st.fmtHeight).reg_table).2.ctrls).2
      0x100 [1]
  by_cases hc1 : (gc02m1_write_table bus st mode_table_common).1 < 0
  · have he : gc02m1_start_streaming bus st
        = gc02m1_write_table bus st mode_table_common := by
      simp [gc02m1_start_streaming, hc1]
    rw [he]
    refine ⟨⟨tail1, hA1⟩, hP1, ?_⟩
    intro hne
    rcases hR1 with h0 | hk
    · exact absurd h0 hne
    · exact ⟨Or.inl hk, hM1⟩
  · by_cases hc2 : (gc02m1_write_table bus
        (gc02m1_write_table bus st mode_table_common).2
        (gc02m1_find_nearest st.fmtWidth st.fmtHeight).reg_table).1 < 0
    · have he : gc02m1_start_streaming bus st
          = gc02m1_write_table bus (gc02m1_write_table bus st mode_table_common).2
            (gc02m1_find_nearest st.fmtWidth st.fmtHeight).reg_table := by
        simp [gc02m1_start_streaming, hc1, hc2]
      rw [he]
      refine ⟨⟨tail1 ++ tail2, by rw [hA2, hA1, List.append_assoc]⟩,
        by rw [hP2, hP1], ?_⟩
      intro hne
      rcases hR2 with h0 | hk
      · exact absurd h0 hne
      · refine ⟨Or.inl hk, ?_⟩
        exact mem_drop_trans st.writes _ _ (fun b => b.1 ≠ 0x100)
          ⟨tail1, hA1⟩ ⟨tail2, hA2⟩ hM1 hM2
    · by_cases hc3 : (gc02m1_ctrl_setup bus
          (gc02m1_write_table bus (gc02m1_write_table bus st mode_table_common).2
            (gc02m1_find_nearest st.fmtWidth st.fmtHeight).reg_table).2
          (gc02m1_write_table bus (gc02m1_write_table bus st mode_table_common).2
            (gc02m1_find_nearest st.fmtWidth st.fmtHeight).reg_table).2.ctrls).1 < 0
      · have he : gc02m1_start_streaming bus st
            = gc02m1_ctrl_setup bus
              (gc02m1_write_table bus (gc02m1_write_table bus st mode_table_common).2
                (gc02m1_find_nearest st.fmtWidth st.fmtHeight).reg_table).2
              (gc02m1_write_table bus (gc02m1_write_table bus st mode_table_common).2
                (gc02m1_find_nearest st.fmtWidth st.fmtHeight).reg_table).2.ctrls := by
          simp [gc02m1_start_streaming, hc1, hc2, hc3]
        rw [he]
        have hM12 := mem_drop_trans st.writes _ _ (fun b => b.1 ≠ 0x100)
          ⟨tail1, hA1⟩ ⟨tail2, hA2⟩ hM1 hM2
        refine ⟨⟨(tail1 ++ tail2) ++ tail3,
          by rw [hA3, hA2, hA1]; simp [List.append_assoc]⟩,
          by rw [hP3, hP2, hP1], ?_⟩
        intro hne
        rcases hR3 with h0 | hk
        · exact absurd h0 hne
        · refine ⟨Or.inr hk, ?_⟩
          exact mem_drop_trans st.writes _ _ (fun b => b.1 ≠ 0x100)
            ⟨tail1 ++ tail2, by rw [hA2, hA1, List.append_assoc]⟩
            ⟨tail3, hA3⟩ hM12 hM3
      · by_cases hc4 : (gc02m1_bulk_write bus
            (gc02m1_ctrl_setup bus
              (gc02m1_write_table bus (gc02m1_write_table bus st mode_table_common).2
                (gc02m1_find_nearest st.fmtWidth st.fmtHeight).reg_table).2
              (gc02m1_write_table bus (gc02m1_write_table bus st mode_table_common).2
                (gc02m1_find_nearest st.fmtWidth st.fmtHeight).reg_table).2.ctrls).2
            0x100 [1]).1 < 0
        · have he : gc02m1_start_streaming bus st
              = gc02m1_bulk_write bus
                (gc02m1_ctrl_setup bus
                  (gc02m1_write_table bus (gc02m1_write_table bus st mode_table_common).2
                    (gc02m1_find_nearest st.fmtWidth st.fmtHeight).reg_table).2
                  (gc02m1_write_table bus (gc02m1_write_table bus st mode_table_common).2
                    (gc02m1_find_nearest st.fmtWidth st.fmtHeight).reg_table).2.ctrls).2
                0x100 [1] := by
            simp [gc02m1_start_streaming, hc1, hc2, hc3, hc4]
          rw [he]
          have hw4 := hfail4 (by omega)
          have hM12 := mem_drop_trans st.writes _ _ (fun b => b.1 ≠ 0x100)
            ⟨tail1, hA1⟩ ⟨tail2, hA2⟩ hM1 hM2
          have hM123 := mem_drop_trans st.writes _ _ (fun b => b.1 ≠ 0x100)
            ⟨tail1 ++ tail2, by rw [hA2, hA1, List.append_assoc]⟩
            ⟨tail3, hA3⟩ hM12 hM3
          refine ⟨⟨(tail1 ++ tail2) ++ tail3,
            by rw [hw4, hA3, hA2, hA1]; simp [List.append_assoc]⟩,
            by rw [hP4, hP3, hP2, hP1], ?_⟩
          intro hne
          rcases hR4 with h0 | hk
          · exact absurd h0 (by omega)
          · refine ⟨Or.inl ⟨_, hk.symm⟩, ?_⟩
            intro b hb
            rw [hw4] at hb
            exact hM123 b hb
        · have he : gc02m1_start_streaming bus st
              = (0, (gc02m1_bulk_write bus
                (gc02m1_ctrl_setup bus
                  (gc02m1_write_table bus (gc02m1_write_table bus st mode_table_common).2
                    (gc02m1_find_nearest st.fmtWidth st.fmtHeight).reg_table).2
                  (gc02m1_write_table bus (gc02m1_write_table bus st mode_table_common).2
                    (gc02m1_find_nearest st.fmtWidth st.fmtHeight).reg_table).2.ctrls).2
                0x100 [1]).2) := by
            simp [gc02m1_start_streaming, hc1, hc2, hc3, hc4]
          rw [he]
          refine ⟨⟨((tail1 ++ tail2) ++ tail3) ++ tail4,
            by rw [hA4, hA3, hA2, hA1]; simp [List.append_assoc]⟩,
            by rw [hP4, hP3, hP2, hP1], ?_⟩
          intro hne
          exact absurd rfl hne

/-! ### Claim theorems -/

/-- C9: for every control id and every value, `s5k5e9_set_ctrl` returns 0
immediately and performs no register I/O (the device state, including the
write log, is unchanged); the switch below the early return is dead code
that would otherwise write registers, as the second conjunct shows for the
gain control on a powered device. -/
theorem s5k5e9_set_ctrl_is_noop :
    (∀ (bus : Bus) (st : S5K5E9State) (id val : Nat),
      s5k5e9_set_ctrl bus st id val = (0, st)) ∧
    (s5k5e9_set_ctrl_dead_code okBus s5k5e9_stP V4L2_CID_GAIN 0x100).2.writes
      ≠ s5k5e9_stP.writes := by
  refine ⟨fun bus st id val => rfl, ?_⟩
  decide

set_option maxRecDepth 40000 in
/-- C10: applying `mode_table_common` stops at entry index 10, the page-3
register write `{0x01, 0x0b}` whose address equals the `GC02M1_TABLE_END`
sentinel value 1, and returns success; only the six bursts covering the
first ten entries are ever written, and the remaining 191 entries of the
202-entry table (CISCTL, analog, gain, BLK, window and MIPI sections) are
never written to the device. -/
theorem gc02m1_common_table_early_end :
    gc02m1_write_table okBus gc02m1_st0 mode_table_common =
      (0, { gc02m1_st0 with
            writes := [(0xfc, [0x01]), (0xf4, [0x41, 0xc0, 0x44]),
                       (0xf8, [0x38, 0x82, 0x00]), (0xfd, [0x80]),
                       (0xfc, [0x81]), (0xfe, [0x03])],
            nextOp := 6 }) ∧
    mode_table_common.getD 10 (Reg8.mk 0 0) = Reg8.mk 0x01 0x0b ∧
    mode_table_common.length = 202 := by
  refine ⟨by decide, by decide, by decide⟩

/-- C5: on the ratio-tracking variant (gc8034), setting exposure `e`
computes `cal_shutter = (e >> 1) << 1` (forcing `e` even), writes
`cal_shutter` (not `e`) to the exposure registers and caches
`Dgain_ratio = 256 * e / cal_shutter` with truncating division; in
particular `e = 4096` yields `cal_shutter = 4096` and `Dgain_ratio = 256`,
and `e = 4097` yields `cal_shutter = 4096` and `Dgain_ratio = 256`. -/
theorem gc8034_exposure_ratio_tracking :
    (∀ (st : GC8034State) (e : Nat), 2 ≤ e →
      gc8034_set_exposure_reg okBus st e =
        (0, { st with
              Dgain_ratio := 256 * e / ((e >>> 1) <<< 1),
              writes := st.writes ++
                [(0xfe, 0x00), (0x03, (((e >>> 1) <<< 1) >>> 8) &&& 0x7F),
                 (0x04, ((e >>> 1) <<< 1) &&& 0xFF)],
              nextOp := st.nextOp + 3 })) ∧
    (gc8034_set_exposure_reg okBus gc8034_st0 4096).2.Dgain_ratio = 256 ∧
    (4096 >>> 1) <<< 1 = 4096 ∧
    (gc8034_set_exposure_reg okBus gc8034_st0 4097).2.Dgain_ratio = 256 ∧
    (4097 >>> 1) <<< 1 = 4096 := by
  refine ⟨fun st e _ => gc8034_set_exposure_reg_ok st e,
    by decide, by decide, by decide, by decide⟩

/-- C5 witness: the general part applied at exposure 4096. -/
theorem gc8034_exposure_ratio_tracking_witness :
    (2 ≤ 4096) ∧
    gc8034_set_exposure_reg okBus gc8034_st0 4096 =
      (0, { gc8034_st0 with
            Dgain_ratio := 256 * 4096 / ((4096 >>> 1) <<< 1),
            writes := gc8034_st0.writes ++
              [(0xfe, 0x00), (0x03, (((4096 >>> 1) <<< 1) >>> 8) &&& 0x7F),
               (0x04, ((4096 >>> 1) <<< 1) &&& 0xFF)],
            nextOp := gc8034_st0.nextOp + 3 }) :=
  ⟨by decide, gc8034_exposure_ratio_tracking.1 gc8034_st0 4096 (by decide)⟩

/-- C6: the exposure encoders split the value into a masked high byte and a
verbatim low byte in two adjacent registers, and the split round-trips: on
gc02m1, for a value `v` in the control range [0, 3184] the two bytes
written at 0x03/0x04 recombine (high << 8 | low) to `v`; on gc8034, for a
value `e` in the control range [4, 8187] the bytes written at 0x03/0x04
recombine to the even-rounded `cal_shutter`. -/
theorem exposure_split_round_trip :
    (∀ (st : GC02M1State) (v : Nat), st.pmRefs ≠ 0 → v ≤ 3184 →
      gc02m1_set_ctrl okBus st V4L2_CID_EXPOSURE v =
        (0, { st with
              writes := st.writes ++ [(0x03, [(v >>> 8) &&& 0x3F, v &&& 0xFF])],
              nextOp := st.nextOp + 1 }) ∧
      ((((v >>> 8) &&& 0x3F) <<< 8) ||| (v &&& 0xFF)) = v) ∧
    (∀ (st : GC8034State) (e : Nat), 4 ≤ e → e ≤ 8187 →
      (gc8034_set_exposure_reg okBus st e).2.writes =
        st.writes ++
          [(0xfe, 0x00), (0x03, (((e >>> 1) <<< 1) >>> 8) &&& 0x7F),
           (0x04, ((e >>> 1) <<< 1) &&& 0xFF)] ∧
      ((((((e >>> 1) <<< 1) >>> 8) &&& 0x7F) <<< 8) ||| (((e >>> 1) <<< 1) &&& 0xFF))
        = (e >>> 1) <<< 1) := by
  constructor
  · intro st v hpm hv
    refine ⟨gc02m1_set_ctrl_exposure_ok st v hpm, ?_⟩
    exact split_recombine63 v (by omega)
  · intro st e _ he
    constructor
    · rw [gc8034_set_exposure_reg_ok st e]
    · have hc := cal_shutter_eq e
      exact split_recombine127 _ (by omega)

/-- C6 witness: the gc02m1 part applied at value 3184 on a powered device,
and the gc8034 part applied at exposure 4096. -/
theorem exposure_split_round_trip_witness :
    (gc02m1_st1.pmRefs ≠ 0 ∧ 3184 ≤ 3184 ∧
      ((((3184 >>> 8) &&& 0x3F) <<< 8) ||| (3184 &&& 0xFF)) = 3184) ∧
    (4 ≤ 4096 ∧ 4096 ≤ 8187 ∧
      ((((((4096 >>> 1) <<< 1) >>> 8) &&& 0x7F) <<< 8) |||
        (((4096 >>> 1) <<< 1) &&& 0xFF)) = (4096 >>> 1) <<< 1) :=
  ⟨⟨by decide, by decide,
    (exposure_split_round_trip.1 gc02m1_st1 3184 (by decide) (by decide)).2⟩,
   by decide, by decide,
   (exposure_split_round_trip.2 gc8034_st0 4096 (by decide) (by decide)).2⟩

set_option maxRecDepth 40000 in
/-- C2 counterexample: a gc02m1 device that is already streaming (the
first `s_stream(true)` succeeded and wrote 1 to the streaming register
0x100).  A second `s_stream(true)` does return 0, but it re-issues the
whole start sequence instead of performing zero additional register
writes: `gc02m1_s_stream` never consults any streaming flag. -/
theorem gc02m1_s_stream_again_not_noop :
    (gc02m1_s_stream okBus gc02m1_st0 true).1 = 0 ∧
    (0x100, [1]) ∈ (gc02m1_s_stream okBus gc02m1_st0 true).2.writes ∧
    (gc02m1_s_stream okBus (gc02m1_s_stream okBus gc02m1_st0 true).2 true).1
      = 0 ∧
    (gc02m1_s_stream okBus (gc02m1_s_stream okBus gc02m1_st0 true).2 true).2.writes.length
      ≠ (gc02m1_s_stream okBus gc02m1_st0 true).2.writes.length := by
  refine ⟨by decide, by decide, by decide, by decide⟩

set_option maxRecDepth 40000 in
/-- C2 (amended): only the gc8034 variant tracks a `streaming` flag and
treats `s_stream(true)` on an already-streaming device as a no-op success
(0 is returned, the state including the write log is unchanged); the
gc02m1 variant keeps no streaming state, so a second `s_stream(true)`
still returns 0 but re-runs the full start sequence, issuing ten further
register writes in the modelled configuration. -/
theorem s_stream_already_streaming :
    (∀ (bus : Bus) (ctrlSetup : GC8034State → Int × GC8034State)
       (st : GC8034State), st.streaming = true →
      gc8034_s_stream bus ctrlSetup st true = (0, st)) ∧
    (gc02m1_s_stream okBus (gc02m1_s_stream okBus gc02m1_st0 true).2 true).2.writes.length
      = (gc02m1_s_stream okBus gc02m1_st0 true).2.writes.length + 10 := by
  constructor
  · intro bus ctrlSetup st h
    simp [gc8034_s_stream, h]
  · decide

/-- C2 witness: the gc8034 no-op applied to a concrete streaming state. -/
theorem s_stream_already_streaming_witness :
    ({ gc8034_st0 with streaming := true } : GC8034State).streaming = true ∧
    gc8034_s_stream okBus (fun st => (0, st))
      { gc8034_st0 with streaming := true } true
      = (0, { gc8034_st0 with streaming := true }) :=
  ⟨by decide,
   s_stream_already_streaming.1 okBus (fun st => (0, st))
     { gc8034_st0 with streaming := true } (by decide)⟩

/-- C4 counterexample: on the reachable catalog shape
[(3264, 2448), (1632, 1224)] with requested width 0xFFFFFFFF and height
2448, the u32 subtractions inside `gc8034_get_reso_dist` wrap, giving
distances 3265 and 2857, so the code selects index 1; but the exact
Manhattan distance of entry 0 is strictly smaller than that of entry 1,
so the claimed first-minimum-of-Manhattan-distance rule demands index 0. -/
theorem gc8034_find_best_fit_claim_false :
    gc8034_find_best_fit [⟨3264, 2448⟩, ⟨1632, 1224⟩] 4294967295 2448 = 1 ∧
    gc8034_get_reso_dist ⟨3264, 2448⟩ 4294967295 2448 = 3265 ∧
    gc8034_get_reso_dist ⟨1632, 1224⟩ 4294967295 2448 = 2857 ∧
    gc8034_claim_reso_dist ⟨3264, 2448⟩ 4294967295 2448 <
      gc8034_claim_reso_dist ⟨1632, 1224⟩ 4294967295 2448 := by
  refine ⟨by decide, by decide, by decide, ?_⟩
  decide

/-- C4 (amended): for every non-empty mode catalog and every requested
(width, height) such that the Manhattan distance from the request to each
catalog entry is below 2^31 — so the u32-wrapping subtractions and the
int reinterpretation inside `gc8034_get_reso_dist` coincide with exact
arithmetic — `gc8034_find_best_fit` returns an index inside the catalog,
its mode achieves the minimum Manhattan distance, every strictly earlier
index has strictly larger distance (so the first entry achieving the
minimum — in particular the earlier of two tied entries — wins), and an
exact match present in the catalog is returned exactly; the final
conjunct is the degenerate two-identical-entries scenario. -/
theorem gc8034_find_best_fit_first_min_inrange :
    (∀ (modes : List GC8034Mode) (w h : Nat), modes ≠ [] →
      (∀ j, j < modes.length →
        gc8034_claim_reso_dist (modes.getD j ⟨0, 0⟩) w h < 2147483648) →
      gc8034_find_best_fit modes w h < modes.length ∧
      (∀ j, j < modes.length →
        gc8034_claim_reso_dist
            (modes.getD (gc8034_find_best_fit modes w h) ⟨0, 0⟩) w h ≤
          gc8034_claim_reso_dist (modes.getD j ⟨0, 0⟩) w h) ∧
      (∀ j, j < gc8034_find_best_fit modes w h →
        gc8034_claim_reso_dist
            (modes.getD (gc8034_find_best_fit modes w h) ⟨0, 0⟩) w h <
          gc8034_claim_reso_dist (modes.getD j ⟨0, 0⟩) w h) ∧
      ((∃ k, k < modes.length ∧ (modes.getD k ⟨0, 0⟩).width = w ∧
          (modes.getD k ⟨0, 0⟩).height = h) →
        (modes.getD (gc8034_find_best_fit modes w h) ⟨0, 0⟩).width = w ∧
        (modes.getD (gc8034_find_best_fit modes w h) ⟨0, 0⟩).height = h)) ∧
    gc8034_find_best_fit [⟨1600, 1200⟩, ⟨1600, 1200⟩] 1600 1200 = 0 := by
  constructor
  · intro modes w h hne hrange
    have hEq : ∀ j, j < modes.length →
        gc8034_get_reso_dist (modes.getD j ⟨0, 0⟩) w h =
          gc8034_claim_reso_dist (modes.getD j ⟨0, 0⟩) w h :=
      fun j hj => gc8034_get_reso_dist_eq_claim _ w h (hrange j hj)
    have hpos : ∀ j, j < modes.length →
        0 ≤ gc8034_get_reso_dist (modes.getD j ⟨0, 0⟩) w h := fun j hj => by
      rw [hEq j hj]
      exact gc8034_claim_reso_dist_nonneg _ w h
    obtain ⟨m, ms, rfl⟩ : ∃ m ms, modes = m :: ms := by
      cases modes with
      | nil => exact absurd rfl hne
      | cons m ms => exact ⟨m, ms, rfl⟩
    have hunfold : gc8034_find_best_fit (m :: ms) w h =
        gc8034_find_best_fit_loop w h ms 1 0 (gc8034_get_reso_dist m w h) := by
      simp [gc8034_find_best_fit, gc8034_find_best_fit_loop]
    have hspec := gc8034_find_best_fit_loop_spec w h (m :: ms) ms 1 0
      (gc8034_get_reso_dist m w h) rfl hpos (by omega) (by simp)
      (by simp [List.getD])
      (fun j hj hjlen => by
        have hj0 : j = 0 := by omega
        simp [hj0, List.getD])
      (fun j hj => absurd hj (Nat.not_lt_zero j))
    rw [hunfold] at *
    obtain ⟨hlt, hmin, hfirst⟩ := hspec
    refine ⟨hlt, ?_, ?_, ?_⟩
    · intro j hj
      have h1 := hmin j hj
      rw [hEq _ hlt, hEq j hj] at h1
      exact h1
    · intro j hj
      have h1 := hfirst j hj
      rw [hEq _ hlt, hEq j (Nat.lt_trans hj hlt)] at h1
      exact h1
    · intro ⟨k, hk, hkw, hkh⟩
      have hdk : gc8034_claim_reso_dist ((m :: ms).getD k ⟨0, 0⟩) w h = 0 := by
        rw [gc8034_claim_reso_dist, hkw, hkh]
        simp
      have h1 := hmin k hk
      rw [hEq _ hlt, hEq k hk, hdk] at h1
      have h2 := gc8034_claim_reso_dist_nonneg
        ((m :: ms).getD (gc8034_find_best_fit_loop w h ms 1 0
          (gc8034_get_reso_dist m w h)) ⟨0, 0⟩) w h
      have hr0 : gc8034_claim_reso_dist
          ((m :: ms).getD (gc8034_find_best_fit_loop w h ms 1 0
            (gc8034_get_reso_dist m w h)) ⟨0, 0⟩) w h = 0 :=
        le_antisymm h1 h2
      have h3 := abs_nonneg ((((m :: ms).getD (gc8034_find_best_fit_loop w h
        ms 1 0 (gc8034_get_reso_dist m w h)) ⟨0, 0⟩).width : Int) - (w : Int))
      have h4 := abs_nonneg ((((m :: ms).getD (gc8034_find_best_fit_loop w h
        ms 1 0 (gc8034_get_reso_dist m w h)) ⟨0, 0⟩).height : Int) - (h : Int))
      rw [gc8034_claim_reso_dist] at hr0
      constructor
      · have : |(((m :: ms).getD (gc8034_find_best_fit_loop w h ms 1 0
          (gc8034_get_reso_dist m w h)) ⟨0, 0⟩).width : Int) - (w : Int)| = 0 := by
          omega
        have := abs_eq_zero.mp this
        omega
      · have : |(((m :: ms).getD (gc8034_find_best_fit_loop w h ms 1 0
          (gc8034_get_reso_dist m w h)) ⟨0, 0⟩).height : Int) - (h : Int)| = 0 := by
          omega
        have := abs_eq_zero.mp this
        omega
  · decide

/-- C4 (amended) witness: the theorem applied to the 4-lane gc8034 catalog
shape at an exactly matching, in-range request. -/
theorem gc8034_find_best_fit_first_min_inrange_witness :
    (([⟨3264, 2448⟩, ⟨1632, 1224⟩] : List GC8034Mode) ≠ [] ∧
      (∀ j, j < ([⟨3264, 2448⟩, ⟨1632, 1224⟩] : List GC8034Mode).length →
        gc8034_claim_reso_dist
          (([⟨3264, 2448⟩, ⟨1632, 1224⟩] : List GC8034Mode).getD j ⟨0, 0⟩)
          1632 1224 < 2147483648)) ∧
    gc8034_find_best_fit [⟨3264, 2448⟩, ⟨1632, 1224⟩] 1632 1224 < 2 :=
  ⟨⟨by decide, by decide⟩, by
    have h := (gc8034_find_best_fit_first_min_inrange.1
      [⟨3264, 2448⟩, ⟨1632, 1224⟩] 1632 1224 (by decide) (by decide)).1
    simpa using h⟩

/-- C1 (amended): for every requested analog gain in the control range
[64, 1092], `gc8034_set_gain_reg` scans the `gain_level` thresholds from
index `MEAG_INDEX - 1 = 6` (not the table's highest index 8) down to 0 and
selects the largest index `i ≤ 6` with `gain_level[i] ≤ a_gain`; it writes
`i` to the gain-step register 0xb6, the digital gain
`(256 * a_gain / gain_level[i]) * Dgain_ratio / 256` split into a high
byte (0xb1) and a low byte (0xb2), and replays the per-index block
`agc_register[i]`.  For a gain equal to a threshold entry of index ≤ 6,
that entry's own index is selected, and for a value strictly between two
such thresholds the smaller threshold's index is selected. -/
theorem gc8034_set_gain_reg_spec :
    ∀ (st : GC8034State) (a : Nat), 64 ≤ a → a ≤ 1092 →
      ∃ i, gc8034_gain_index a 6 = some i ∧ i ≤ 6 ∧
        gain_level.getD i 0 ≤ a ∧
        (∀ j, j ≤ 6 → gain_level.getD j 0 ≤ a → j ≤ i) ∧
        gc8034_set_gain_reg okBus st a =
          (0, { st with
                writes := st.writes ++
                  [(0xfe, 0x00), (0xb6, i),
                   (0xb1, ((256 * a / gain_level.getD i 0 * st.Dgain_ratio / 256) >>> 8) &&& 0xFF),
                   (0xb2, (256 * a / gain_level.getD i 0 * st.Dgain_ratio / 256) &&& 0xFF),
                   (0xfe, (agc_register.getD i []).getD 0 0),
                   (0x20, (agc_register.getD i []).getD 1 0),
                   (0x33, (agc_register.getD i []).getD 2 0),
                   (0xfe, (agc_register.getD i []).getD 3 0),
                   (0xdf, (agc_register.getD i []).getD 4 0),
                   (0xe7, (agc_register.getD i []).getD 5 0),
                   (0xe8, (agc_register.getD i []).getD 6 0),
                   (0xe9, (agc_register.getD i []).getD 7 0),
                   (0xea, (agc_register.getD i []).getD 8 0),
                   (0xeb, (agc_register.getD i []).getD 9 0),
                   (0xec, (agc_register.getD i []).getD 10 0),
                   (0xed, (agc_register.getD i []).getD 11 0),
                   (0xee, (agc_register.getD i []).getD 12 0),
                   (0xfe, (agc_register.getD i []).getD 13 0)],
                nextOp := st.nextOp + 18 }) := by
  intro st a h64 _
  obtain ⟨i, hidx, hle, hgl, hmax⟩ := gc8034_gain_index_cases a h64
  exact ⟨i, hidx, hle, hgl, hmax, gc8034_set_gain_reg_emit st a i hidx⟩

/-- C1 counterexample: the claim as stated fails at `a_gain = 684`, which
lies in [64, 1092] and equals the threshold `gain_level[7]`: scanning the
whole table, as the claim words it, selects index 7 with digital gain 256,
but the code starts the scan at index `MEAG_INDEX - 1 = 6` and writes gain
step 6 to register 0xb6 (with digital gain 256*684/490 = 357 instead). -/
theorem gc8034_set_gain_reg_claim_false :
    64 ≤ 684 ∧ 684 ≤ 1092 ∧
    gain_level.getD 7 0 = 684 ∧
    gc8034_claim_gain_index 684 = some 7 ∧
    (gc8034_set_gain_reg okBus gc8034_st0 684).2.writes.getD 1 (0, 0) = (0xb6, 6) ∧
    (6 : Nat) ≠ 7 := by
  refine ⟨by decide, by decide, by decide, by decide, by decide, by decide⟩

/-- C1 witness: the amended theorem applied at `a_gain = 684`. -/
theorem gc8034_set_gain_reg_spec_witness :
    64 ≤ 684 ∧ 684 ≤ 1092 ∧
    (∃ i, gc8034_gain_index 684 6 = some i ∧ i ≤ 6 ∧
      gain_level.getD i 0 ≤ 684 ∧
      (∀ j, j ≤ 6 → gain_level.getD j 0 ≤ 684 → j ≤ i) ∧
      gc8034_set_gain_reg okBus gc8034_st0 684 =
        (0, { gc8034_st0 with
              writes := gc8034_st0.writes ++
                [(0xfe, 0x00), (0xb6, i),
                 (0xb1, ((256 * 684 / gain_level.getD i 0 * gc8034_st0.Dgain_ratio / 256) >>> 8) &&& 0xFF),
                 (0xb2, (256 * 684 / gain_level.getD i 0 * gc8034_st0.Dgain_ratio / 256) &&& 0xFF),
                 (0xfe, (agc_register.getD i []).getD 0 0),
                 (0x20, (agc_register.getD i []).getD 1 0),
                 (0x33, (agc_register.getD i []).getD 2 0),
                 (0xfe, (agc_register.getD i []).getD 3 0),
                 (0xdf, (agc_register.getD i []).getD 4 0),
                 (0xe7, (agc_register.getD i []).getD 5 0),
                 (0xe8, (agc_register.getD i []).getD 6 0),
                 (0xe9, (agc_register.getD i []).getD 7 0),
                 (0xea, (agc_register.getD i []).getD 8 0),
                 (0xeb, (agc_register.getD i []).getD 9 0),
                 (0xec, (agc_register.getD i []).getD 10 0),
                 (0xed, (agc_register.getD i []).getD 11 0),
                 (0xee, (agc_register.getD i []).getD 12 0),
                 (0xfe, (agc_register.getD i []).getD 13 0)],
              nextOp := gc8034_st0.nextOp + 18 })) :=
  ⟨by decide, by decide,
   gc8034_set_gain_reg_spec gc8034_st0 684 (by decide) (by decide)⟩

/-- C7: for every register table and every bus behaviour, table
application (gc8034_write_array and gc02m1_write_table alike) only ever
appends to the write log (no rollback) and, whenever it returns a nonzero
code, that code is the error of the last bus transaction attempted, every
earlier attempted transaction succeeded (the walk aborts at the first
failing write), and exactly one write was logged per successful
transaction before the failing one — no entry after the failure is
written. -/
theorem write_table_abort_on_first_failure :
    (∀ (bus : Bus) (st : GC8034State) (table : List Regval),
      (∃ tail, (gc8034_write_array bus st table).2.writes = st.writes ++ tail) ∧
      ((gc8034_write_array bus st table).1 ≠ 0 →
        st.nextOp < (gc8034_write_array bus st table).2.nextOp ∧
        (gc8034_write_array bus st table).1 =
          bus.err ((gc8034_write_array bus st table).2.nextOp - 1) ∧
        (∀ k, st.nextOp ≤ k → k < (gc8034_write_array bus st table).2.nextOp - 1 →
          bus.err k = 0) ∧
        (gc8034_write_array bus st table).2.writes.length =
          st.writes.length +
            ((gc8034_write_array bus st table).2.nextOp - 1 - st.nextOp))) ∧
    (∀ (bus : Bus) (st : GC02M1State) (table : List Reg8),
      (∃ tail, (gc02m1_write_table bus st table).2.writes = st.writes ++ tail) ∧
      ((gc02m1_write_table bus st table).1 ≠ 0 →
        st.nextOp < (gc02m1_write_table bus st table).2.nextOp ∧
        (gc02m1_write_table bus st table).1 =
          bus.err ((gc02m1_write_table bus st table).2.nextOp - 1) ∧
        (∀ k, st.nextOp ≤ k → k < (gc02m1_write_table bus st table).2.nextOp - 1 →
          bus.err k = 0) ∧
        (gc02m1_write_table bus st table).2.writes.length =
          st.writes.length +
            ((gc02m1_write_table bus st table).2.nextOp - 1 - st.nextOp))) :=
  ⟨fun bus st table =>
    ⟨(gc8034_write_array_fail_spec bus table st).1,
     (gc8034_write_array_fail_spec bus table st).2.2⟩,
   fun bus st table =>
    ⟨(gc02m1_write_table_go_fail_spec bus table.length table st).1,
     (gc02m1_write_table_go_fail_spec bus table.length table st).2.2⟩⟩

/-- C7 witness: the gc8034 part applied to a four-entry table on a bus
that fails at its second transaction with -5. -/
theorem write_table_abort_on_first_failure_witness :
    (gc8034_write_array (failAt 1 (-5)) gc8034_st0
        [Regval.mk 0x10 1, Regval.mk 0x11 2, Regval.mk 0x12 3, Regval.mk 0xFF 0]).1
      ≠ 0 ∧
    (gc8034_st0.nextOp <
      (gc8034_write_array (failAt 1 (-5)) gc8034_st0
        [Regval.mk 0x10 1, Regval.mk 0x11 2, Regval.mk 0x12 3, Regval.mk 0xFF 0]).2.nextOp ∧
    (gc8034_write_array (failAt 1 (-5)) gc8034_st0
        [Regval.mk 0x10 1, Regval.mk 0x11 2, Regval.mk 0x12 3, Regval.mk 0xFF 0]).1 =
      (failAt 1 (-5)).err
        ((gc8034_write_array (failAt 1 (-5)) gc8034_st0
          [Regval.mk 0x10 1, Regval.mk 0x11 2, Regval.mk 0x12 3, Regval.mk 0xFF 0]).2.nextOp - 1) ∧
    (∀ k, gc8034_st0.nextOp ≤ k →
      k < (gc8034_write_array (failAt 1 (-5)) gc8034_st0
        [Regval.mk 0x10 1, Regval.mk 0x11 2, Regval.mk 0x12 3, Regval.mk 0xFF 0]).2.nextOp - 1 →
      (failAt 1 (-5)).err k = 0) ∧
    (gc8034_write_array (failAt 1 (-5)) gc8034_st0
        [Regval.mk 0x10 1, Regval.mk 0x11 2, Regval.mk 0x12 3, Regval.mk 0xFF 0]).2.writes.length =
      gc8034_st0.writes.length +
        ((gc8034_write_array (failAt 1 (-5)) gc8034_st0
          [Regval.mk 0x10 1, Regval.mk 0x11 2, Regval.mk 0x12 3, Regval.mk 0xFF 0]).2.nextOp - 1
          - gc8034_st0.nextOp)) :=
  ⟨by decide,
   (write_table_abort_on_first_failure.1 (failAt 1 (-5)) gc8034_st0
     [Regval.mk 0x10 1, Regval.mk 0x11 2, Regval.mk 0x12 3, Regval.mk 0xFF 0]).2
     (by decide)⟩

/-- C3: the table interpreter coalesces runs of up to 4 entries with
exactly consecutive addresses into one burst: every burst it issues has
length between 1 and 4 and its j-th byte is the value of a table entry
whose address is exactly base+j; on the concrete address sequence
[0x10, 0x11, 0x12, 0x20] it issues exactly one burst of length 3 at 0x10
followed by one single write at 0x20 (in both the gc02m1 and s5k5e9
interpreters), advancing the cursor past the consumed entries. -/
theorem gc02m1_burst_coalescing :
    (∀ (bus : Bus) (st : GC02M1State) (table : List Reg8),
      ∀ b ∈ (gc02m1_write_table bus st table).2.writes.drop st.writes.length,
        1 ≤ b.2.length ∧ b.2.length ≤ 4 ∧
        ∀ j, j < b.2.length → Reg8.mk (b.1 + j) (b.2.getD j 0) ∈ table) ∧
    (∀ (a b c d : Nat),
      gc02m1_write_table okBus gc02m1_st0
          [Reg8.mk 0x10 a, Reg8.mk 0x11 b, Reg8.mk 0x12 c, Reg8.mk 0x20 d,
           Reg8.mk 0x01 0] =
        (0, { gc02m1_st0 with
              writes := [(0x10, [a, b, c]), (0x20, [d])], nextOp := 2 })) ∧
    (∀ (a b c d : Nat),
      s5k5e9_write_table okBus s5k5e9_stP
          [Reg8.mk 0x10 a, Reg8.mk 0x11 b, Reg8.mk 0x12 c, Reg8.mk 0x20 d,
           Reg8.mk 0x01 0] =
        (0, { s5k5e9_stP with
              writes := [(0x10, [a, b, c]), (0x20, [d])], nextOp := 2 })) :=
  ⟨fun bus st table =>
    gc02m1_write_table_go_bursts bus table.length table st,
   fun a b c d => rfl, fun a b c d => rfl⟩

/-- C3 witness: the universal part applied to the concrete table of the
claim and its length-3 burst at 0x10. -/
theorem gc02m1_burst_coalescing_witness :
    (0x10, [1, 2, 3]) ∈
      (gc02m1_write_table okBus gc02m1_st0
        [Reg8.mk 0x10 1, Reg8.mk 0x11 2, Reg8.mk 0x12 3, Reg8.mk 0x20 4,
         Reg8.mk 0x01 0]).2.writes.drop gc02m1_st0.writes.length ∧
    (1 ≤ ([1, 2, 3] : List Nat).length ∧ ([1, 2, 3] : List Nat).length ≤ 4 ∧
      ∀ j, j < ([1, 2, 3] : List Nat).length →
        Reg8.mk (0x10 + j) (([1, 2, 3] : List Nat).getD j 0) ∈
          [Reg8.mk 0x10 1, Reg8.mk 0x11 2, Reg8.mk 0x12 3, Reg8.mk 0x20 4,
           Reg8.mk 0x01 0]) :=
  ⟨by decide,
   gc02m1_burst_coalescing.1 okBus gc02m1_st0
     [Reg8.mk 0x10 1, Reg8.mk 0x11 2, Reg8.mk 0x12 3, Reg8.mk 0x20 4,
      Reg8.mk 0x01 0]
     (0x10, [1, 2, 3]) (by decide)⟩

set_option maxRecDepth 40000 in
/-- C8: whenever the gc02m1 streaming-start sequence (common table, mode
table, cached-control replay, start-streaming register, each checked with
`if (ret < 0)`) reports a failure, `s_stream(true)` returns a negative
error which is either the return code of a failing bus transaction or the
control layer's -EINVAL, the runtime-PM reference acquired at entry is
released again (the usage count is back to its initial value), and no
write of 1 to the start-streaming register 0x100 ever reached the device,
so the device remains in the non-streaming state; nothing is rolled
back — the write log only grows. -/
theorem gc02m1_s_stream_failure_cleanup :
    ∀ (bus : Bus) (st : GC02M1State),
      (∀ k, bus.err k ≤ 0) →
      (gc02m1_s_stream bus st true).1 ≠ 0 →
      (gc02m1_s_stream bus st true).1 < 0 ∧
      (gc02m1_s_stream bus st true).2.pmRefs = st.pmRefs ∧
      ((∃ k, bus.err k = (gc02m1_s_stream bus st true).1) ∨
        (gc02m1_s_stream bus st true).1 = -22) ∧
      (∀ b ∈ (gc02m1_s_stream bus st true).2.writes.drop st.writes.length,
        b.1 ≠ 0x100) := by
  intro bus st hbus hne
  obtain ⟨⟨tailS, hAS⟩, hPS, himp⟩ :=
    gc02m1_start_streaming_spec bus { st with pmRefs := st.pmRefs + 1 }
  simp only [] at hAS hPS himp
  by_cases hc : (gc02m1_start_streaming bus { st with pmRefs := st.pmRefs + 1 }).1 < 0
  · have he : gc02m1_s_stream bus st true =
        ((gc02m1_start_streaming bus { st with pmRefs := st.pmRefs + 1 }).1,
         { (gc02m1_start_streaming bus { st with pmRefs := st.pmRefs + 1 }).2 with
             pmRefs := (gc02m1_start_streaming bus
               { st with pmRefs := st.pmRefs + 1 }).2.pmRefs - 1 }) := by
      simp [gc02m1_s_stream, hc]
    obtain ⟨hchar, hmem⟩ := himp (ne_of_lt hc)
    rw [he]
    refine ⟨hc, by simp only []; omega, hchar, hmem⟩
  · have he : gc02m1_s_stream bus st true =
        (0, (gc02m1_start_streaming bus { st with pmRefs := st.pmRefs + 1 }).2) := by
      simp [gc02m1_s_stream, hc]
    rw [he] at hne
    exact absurd rfl hne

set_option maxRecDepth 100000 in
/-- C8 witness: the theorem applied to a bus whose very first transaction
(the first burst of the common table) fails with -5. -/
theorem gc02m1_s_stream_failure_cleanup_witness :
    (∀ k, (failAt 0 (-5)).err k ≤ 0) ∧
    (gc02m1_s_stream (failAt 0 (-5)) gc02m1_st0 true).1 ≠ 0 ∧
    ((gc02m1_s_stream (failAt 0 (-5)) gc02m1_st0 true).1 < 0 ∧
     (gc02m1_s_stream (failAt 0 (-5)) gc02m1_st0 true).2.pmRefs
       = gc02m1_st0.pmRefs ∧
     ((∃ k, (failAt 0 (-5)).err k
        = (gc02m1_s_stream (failAt 0 (-5)) gc02m1_st0 true).1) ∨
       (gc02m1_s_stream (failAt 0 (-5)) gc02m1_st0 true).1 = -22) ∧
     (∀ b ∈ (gc02m1_s_stream (failAt 0 (-5)) gc02m1_st0 true).2.writes.drop
         gc02m1_st0.writes.length, b.1 ≠ 0x100)) :=
  ⟨fun k => by
    dsimp [failAt]
    split <;> norm_num,
   by decide,
   gc02m1_s_stream_failure_cleanup (failAt 0 (-5)) gc02m1_st0
     (fun k => by
       dsimp [failAt]
       split <;> norm_num)
     (by decide)⟩

end SensorDrivers
